import Mathlib

/-
  Verification development for the N-body simulator (src/src/N-body.py).

  The physics core is shallowly embedded: Python floats become exact reals
  (ℝ), `math.sqrt` becomes `Real.sqrt`, and the mutable object graph becomes
  explicit state passing.  A Python `ZeroDivisionError` raised inside one of
  the per-body worker threads of `Asystem.animate` is printed and swallowed
  by the threading machinery (the caller only `join`s the thread), so a
  per-body update is modelled as `Body × Bool`, the Bool flagging that the
  thread died mid-way and the body keeps the state it had at that point.

  Since the per-body threads of one phase only write disjoint per-body
  fields (force/velocity in phase 1, position/trajectory/time in phase 2)
  and only read fields no phase-mate writes (positions and masses in
  phase 1, own state in phase 2), and `animate` joins every phase-1 thread
  before starting phase 2, every interleaving is equivalent to the
  sequential two-pass semantics used below.
-/

set_option maxHeartbeats 1000000

noncomputable section

/-- Configuration constants read from `config/*.ini` at module load. -/
structure Config where
  GRAV_CONS : ℝ
  NORM_DELTA_T : ℝ
  FINE_DELTA_T : ℝ
  SEC_PER_DAY : ℝ
  SAVE_RATE : ℕ

/-- State of one celestial body (class `Body`).  The rendering-only fields
colors and texture are carried; the force accumulator `Fx,Fy,Fz` is zeroed by
`zeroF` at the start of every force pass.  `coord` is the trajectory list. -/
structure Body where
  ident : String
  time : ℝ
  x : ℝ
  y : ℝ
  z : ℝ
  Vx : ℝ
  Vy : ℝ
  Vz : ℝ
  mass : ℝ
  radius : ℝ
  color1 : ℝ
  color2 : ℝ
  color3 : ℝ
  texture : ℤ
  coord : List (ℝ × ℝ × ℝ)
  Fx : ℝ
  Fy : ℝ
  Fz : ℝ

instance : Inhabited Body :=
  ⟨⟨"", 0, 0, 0, 0, 0, 0, 0, 0, 0, 0, 0, 0, 0, [], 0, 0, 0⟩⟩

/-- Position triple of a body. -/
def posOf (b : Body) : ℝ × ℝ × ℝ := (b.x, b.y, b.z)

/-- Velocity triple of a body. -/
def velOf (b : Body) : ℝ × ℝ × ℝ := (b.Vx, b.Vy, b.Vz)

/-- Method `Body.zeroF`: reset the force accumulator. -/
def Body.zeroF (b : Body) : Body :=
  { b with Fx := 0, Fy := 0, Fz := 0 }

/-- Euclidean center distance between two bodies, as computed inside
`Body.cal_netforce` (`math.sqrt(Dx**2 + Dy**2 + Dz**2)`). -/
def bodyDist (b o : Body) : ℝ :=
  Real.sqrt ((o.x - b.x) ^ 2 + (o.y - b.y) ^ 2 + (o.z - b.z) ^ 2)

/-- Method `Body.cal_netforce`: add the gravitational pull of `o` on `b` to
`b`'s force accumulator.  In Python the divisions raise `ZeroDivisionError`
when the distance is zero; callers below only evaluate this function on
pairs at nonzero distance, the zero-distance case being modelled as the
thread-death flag of `forceLoop`. -/
def Body.cal_netforce (cfg : Config) (b o : Body) : Body :=
  let Dx := o.x - b.x
  let Dy := o.y - b.y
  let Dz := o.z - b.z
  let distance := Real.sqrt (Dx ^ 2 + Dy ^ 2 + Dz ^ 2)
  let con := cfg.GRAV_CONS * b.mass * o.mass / distance ^ 2
  let gd := con / distance
  { b with Fx := b.Fx + gd * Dx, Fy := b.Fy + gd * Dy, Fz := b.Fz + gd * Dz }

/-- Contribution of `o` to the force on `b`, as a vector; this is exactly the
triple `Body.cal_netforce` adds to the accumulator. -/
def contrib (cfg : Config) (b o : Body) : ℝ × ℝ × ℝ :=
  let Dx := o.x - b.x
  let Dy := o.y - b.y
  let Dz := o.z - b.z
  let distance := Real.sqrt (Dx ^ 2 + Dy ^ 2 + Dz ^ 2)
  let con := cfg.GRAV_CONS * b.mass * o.mass / distance ^ 2
  let gd := con / distance
  (gd * Dx, gd * Dy, gd * Dz)

/-- Method `Body.cal_velocity`: `V += F * Δt / mass` componentwise. -/
def Body.cal_velocity (dt : ℝ) (b : Body) : Body :=
  { b with
    Vx := b.Vx + b.Fx * dt / b.mass
    Vy := b.Vy + b.Fy * dt / b.mass
    Vz := b.Vz + b.Fz * dt / b.mass }

/-- Method `Body.cal_position`: `P += V * Δt`, then append the new position
to the trajectory list. -/
def Body.cal_position (dt : ℝ) (b : Body) : Body :=
  let nx := b.x + b.Vx * dt
  let ny := b.y + b.Vy * dt
  let nz := b.z + b.Vz * dt
  { b with x := nx, y := ny, z := nz, coord := b.coord ++ [(nx, ny, nz)] }

/-- The `for other_body in self.system` loop of `Asystem.compute1`.  The
list carries each body with its index; the entry at the body's own index is
skipped (`body != other_body` is Python object identity).  Encountering a
body at distance zero raises `ZeroDivisionError` inside `cal_netforce`; the
loop stops there with the partially accumulated state and the error flag. -/
def forceLoop (cfg : Config) (i : ℕ) : Body → List (ℕ × Body) → Body × Bool
  | b, [] => (b, false)
  | b, p :: rest =>
    if p.1 = i then forceLoop cfg i b rest
    else if bodyDist b p.2 = 0 then (b, true)
    else forceLoop cfg i (b.cal_netforce cfg p.2) rest

/-- Method `Asystem.compute1` run for the body at index `i`: zero the force
accumulator, accumulate the force from every other body, then update the
velocity.  When the loop died the velocity update never runs (the exception
killed the thread before `cal_velocity`); the flag records the death. -/
def compute1 (cfg : Config) (dt : ℝ) (bodies : List Body) (i : ℕ) (b : Body) :
    Body × Bool :=
  let r := forceLoop cfg i b.zeroF bodies.enum
  if r.2 then r else (r.1.cal_velocity dt, false)

/-- Method `Asystem.compute2`: position update plus time-stamp advance by
`Δt / SEC_PER_DAY`. -/
def compute2 (cfg : Config) (dt : ℝ) (b : Body) : Body :=
  let b2 := b.cal_position dt
  { b2 with time := b2.time + dt / cfg.SEC_PER_DAY }

/-- State of class `Asystem`: the body list, the current time step, the step
counter, and the collision/closeness records of the most recent scan.  The
code stores collisions as the string `"i and j, i and j, ..."` and closeness
entries as strings `"i and j; d"`; the entries are modelled structurally as
the ident pairs (resp. ident pairs with the distance). -/
structure Asystem where
  DELTA_T : ℝ
  collisions : List (String × String)
  system : List Body
  count : ℕ
  closeness : List (String × String × ℝ)

/-- One line of the snapshot file written by `Asystem.write_to_file`.  A
body record line holds the 14 comma-separated fields; the code additionally
writes a `"Collisions: ..."` line, a `"Closeness: ..."` line and (from the
trailing `"\n\n"`) a blank line after every snapshot. -/
structure BodyRecord where
  ident : String
  time : ℝ
  x : ℝ
  y : ℝ
  z : ℝ
  Vx : ℝ
  Vy : ℝ
  Vz : ℝ
  mass : ℝ
  radius : ℝ
  color1 : ℝ
  color2 : ℝ
  color3 : ℝ
  texture : ℤ

/-- Snapshot line.  The non-record constructors carry the data the code
renders into the corresponding text line. -/
inductive SnapLine
  | record : BodyRecord → SnapLine
  | collisionsLine : List (String × String) → SnapLine
  | closenessLine : List (String × String × ℝ) → SnapLine
  | blank : SnapLine

/-- The record `Asystem.write_to_file` emits for one body. -/
def recordOf (b : Body) : BodyRecord :=
  ⟨b.ident, b.time, b.x, b.y, b.z, b.Vx, b.Vy, b.Vz, b.mass, b.radius,
    b.color1, b.color2, b.color3, b.texture⟩

/-- Method `Asystem.write_to_file`: one record line per body in order,
followed by the collisions line, the closeness line and a blank line. -/
def write_to_file (s : Asystem) : List SnapLine :=
  s.system.map (fun b => SnapLine.record (recordOf b)) ++
    [SnapLine.collisionsLine s.collisions,
     SnapLine.closenessLine s.closeness,
     SnapLine.blank]

/-- Constructor call `Body(...)` performed by `Asystem.read_from_file` for
one parsed record: all fourteen fields are supplied, the trajectory starts
empty, and `zeroF` runs in `__init__`. -/
def bodyOfRecord (r : BodyRecord) : Body :=
  ⟨r.ident, r.time, r.x, r.y, r.z, r.Vx, r.Vy, r.Vz, r.mass, r.radius,
    r.color1, r.color2, r.color3, r.texture, [], 0, 0, 0⟩

/-- Method `Asystem.read_from_file`: parse each line in order; a line whose
first field is the header token `"ident"` is skipped; any other line must
parse as fourteen body fields.  The collisions/closeness/blank lines do not
(`float()` raises `ValueError`, or indexing field 1 of a blank line raises
`IndexError`), which aborts the read with no body list. -/
def read_from_file : List SnapLine → Option (List Body)
  | [] => some []
  | SnapLine.record r :: rest =>
    if r.ident = "ident" then read_from_file rest
    else
      match read_from_file rest with
      | some bodies => some (bodyOfRecord r :: bodies)
      | none => none
  | SnapLine.collisionsLine _ :: _ => none
  | SnapLine.closenessLine _ :: _ => none
  | SnapLine.blank :: _ => none

/-- Distance between the bodies at indices `i` and `j`, as computed inside
`Asystem.if_collision` (`(x_dif**2 + y_dif**2 + z_dif**2)**0.5`). -/
def pairDist (bodies : List Body) (i j : ℕ) : ℝ :=
  let bi := bodies.getD i default
  let bj := bodies.getD j default
  Real.sqrt ((bi.x - bj.x) ^ 2 + (bi.y - bj.y) ^ 2 + (bi.z - bj.z) ^ 2)

/-- Sum of the radii of the bodies at an index pair
(`self.system[i].radius + self.system[j].radius`). -/
def radiusSum (bodies : List Body) (i j : ℕ) : ℝ :=
  (bodies.getD i default).radius + (bodies.getD j default).radius

/-- Ident pair the collision scan records for an index pair. -/
def identPair (bodies : List Body) (i j : ℕ) : String × String :=
  ((bodies.getD i default).ident, (bodies.getD j default).ident)

/-- Body of the double loop of `Asystem.if_collision` for one index pair:
pairs with `i > j` set the near flag when `d ≤ 30·(r_i + r_j)` and append a
collision record when `d ≤ r_i + r_j`. -/
def collisionVisit (bodies : List Body) (acc : List (String × String) × Bool)
    (i j : ℕ) : List (String × String) × Bool :=
  if i > j then
    let d := pairDist bodies i j
    let acc1 := if d ≤ 30 * radiusSum bodies i j then (acc.1, true) else acc
    if d ≤ radiusSum bodies i j then (acc1.1 ++ [identPair bodies i j], acc1.2)
    else acc1
  else acc

/-- The pair scan of `Asystem.if_collision`: both loops run over all indices
in order, starting from an empty collision record and a cleared near flag. -/
def collisionScan (bodies : List Body) : List (String × String) × Bool :=
  (List.range bodies.length).foldl
    (fun acc i =>
      (List.range bodies.length).foldl (fun acc2 j => collisionVisit bodies acc2 i j) acc)
    ([], false)

/-- Method `Asystem.if_collision`: run the pair scan, store the collision
records, then select the next time step: Δt = 0 when the pause toggle
`init.bool_T` is off, else the fine step (writing a snapshot) when the scan
flag is set, else the normal step. -/
def if_collision (cfg : Config) (bool_T : Bool) (s : Asystem) :
    Asystem × Option (List SnapLine) :=
  let scan := collisionScan s.system
  let s1 := { s with collisions := scan.1 }
  if bool_T = false then ({ s1 with DELTA_T := 0 }, none)
  else if scan.2 then
    let s2 := { s1 with DELTA_T := cfg.FINE_DELTA_T }
    (s2, some (write_to_file s2))
  else ({ s1 with DELTA_T := cfg.NORM_DELTA_T }, none)

/-- Trajectory sample `l[-i]` in Python negative indexing (callers keep
`i ≤ l.length`; Python would raise `IndexError` otherwise). -/
def coordAt (l : List (ℝ × ℝ × ℝ)) (i : ℕ) : ℝ × ℝ × ℝ :=
  l.getD (l.length - i) (0, 0, 0)

/-- Distance between the `i`-th most recent trajectory samples of two
bodies, as computed inside `Asystem.close_calc`. -/
def sampleDist (b1 b2 : Body) (i : ℕ) : ℝ :=
  let p := coordAt b1.coord i
  let q := coordAt b2.coord i
  Real.sqrt ((p.1 - q.1) ^ 2 + (p.2.1 - q.2.1) ^ 2 + (p.2.2 - q.2.2) ^ 2)

/-- Method `Asystem.close_calc`: when the first body has more than two
samples, compute the last three pairwise distances (`distances[0]` is the
most recent) and record a closeness event with the middle distance when they
form a strict local minimum.  Returns the updated system and the flag the
method returns. -/
def close_calc (s : Asystem) (b1 b2 : Body) : Asystem × Bool :=
  if 2 < b1.coord.length then
    let d1 := sampleDist b1 b2 1
    let d2 := sampleDist b1 b2 2
    let d3 := sampleDist b1 b2 3
    if d1 > d2 ∧ d2 < d3 then
      ({ s with closeness := s.closeness ++ [(b1.ident, b2.ident, d2)] }, true)
    else (s, false)
  else (s, false)

/-- Result of one `Asystem.animate` call: the new system state, the indices
of the bodies whose phase-1 thread died from `ZeroDivisionError` (the
exception is printed and swallowed; the caller observes no failure), and the
snapshots written during the step. -/
structure StepOut where
  sys : Asystem
  errs : List ℕ
  snaps : List (List SnapLine)

/-- The force+velocity pass of `Asystem.animate`: one `compute1` task per
body, all reading the same pre-step body list. -/
def phase1 (cfg : Config) (s : Asystem) : List (Body × Bool) :=
  s.system.enum.map (fun p => compute1 cfg s.DELTA_T s.system p.1 p.2)

/-- Method `Asystem.animate` (one simulation step): clear the closeness
records, write the periodic snapshot, run all `compute1` tasks and join
them, then run all `compute2` tasks and join them, then `display` runs
`if_collision` (the commented-out `close_calc` call is absent), and the step
counter is incremented. -/
def animate (cfg : Config) (bool_T : Bool) (s : Asystem) : StepOut :=
  let s1 : Asystem := { s with closeness := [] }
  let snaps1 : List (List SnapLine) :=
    if s1.count % cfg.SAVE_RATE = 0 then [write_to_file s1] else []
  let res1 := phase1 cfg s1
  let errs := (res1.enum.filter (fun p => p.2.2)).map (fun p => p.1)
  let bodies2 := (res1.map Prod.fst).map (compute2 cfg s1.DELTA_T)
  let s2 : Asystem := { s1 with system := bodies2 }
  let ic := if_collision cfg bool_T s2
  ⟨{ ic.1 with count := ic.1.count + 1 }, errs, snaps1 ++ ic.2.toList⟩

/-- Iterated simulation steps. -/
def animateN (cfg : Config) (bool_T : Bool) : ℕ → Asystem → Asystem
  | 0, s => s
  | n + 1, s => (animate cfg bool_T (animateN cfg bool_T n s)).sys

/-- Total momentum of the system: componentwise sum of `mass · V`. -/
def momentum (s : Asystem) : ℝ × ℝ × ℝ :=
  (s.system.map (fun b => (b.mass * b.Vx, b.mass * b.Vy, b.mass * b.Vz))).sum

/-- Pairwise distinctness of the body positions of a list. -/
def distinctPositions (l : List Body) : Prop :=
  ∀ i j, i < l.length → j < l.length → i ≠ j →
    posOf (l.getD i default) ≠ posOf (l.getD j default)

/-- Agreement of two bodies on every field other than the force
accumulator; the force pass of a step changes nothing else before the
velocity update. -/
def sameExceptF (a b : Body) : Prop :=
  a.ident = b.ident ∧ a.time = b.time ∧ a.x = b.x ∧ a.y = b.y ∧ a.z = b.z ∧
  a.Vx = b.Vx ∧ a.Vy = b.Vy ∧ a.Vz = b.Vz ∧ a.mass = b.mass ∧
  a.radius = b.radius ∧ a.color1 = b.color1 ∧ a.color2 = b.color2 ∧
  a.color3 = b.color3 ∧ a.texture = b.texture ∧ a.coord = b.coord

/-- Each unordered index pair below `n`, listed once, in the visiting order
of the double loop of `Asystem.if_collision` (larger index first). -/
def allPairs (n : ℕ) : List (ℕ × ℕ) :=
  (List.range n).flatMap fun i => (List.range i).map fun j => (i, j)

/-- Test configuration: unit constants, snapshot every step. -/
def cfg0 : Config := ⟨1, 1, 1, 1, 1⟩

/-- Test body at the origin, unit mass, zero radius, at rest. -/
def bodyA : Body := ⟨"A", 0, 0, 0, 0, 0, 0, 0, 1, 0, 0, 0, 0, 0, [], 0, 0, 0⟩

/-- Test body at (3, 4, 0) (distance 5 from the origin), unit mass. -/
def bodyB : Body := ⟨"B", 0, 3, 4, 0, 0, 0, 0, 1, 0, 0, 0, 0, 0, [], 0, 0, 0⟩

/-- Test system of the two bodies above, at the normal unit time step. -/
def sysAB : Asystem := ⟨1, [], [bodyA, bodyB], 0, []⟩

/-- Test body at the origin moving along x with unit speed. -/
def bodyC : Body := ⟨"C", 0, 0, 0, 0, 1, 0, 0, 1, 0, 0, 0, 0, 0, [], 0, 0, 0⟩

/-- Test body at the origin at rest — it coincides with `bodyC`. -/
def bodyD : Body := ⟨"D", 0, 0, 0, 0, 0, 0, 0, 1, 0, 0, 0, 0, 0, [], 0, 0, 0⟩

/-- Test system with two coincident bodies. -/
def sysCoin : Asystem := ⟨1, [], [bodyC, bodyD], 0, []⟩

/-- Test body resting at the origin with two identical trajectory samples. -/
def bodyF : Body :=
  ⟨"F", 0, 0, 0, 0, 0, 0, 0, 1, 0, 0, 0, 0, 0, [(0, 0, 0), (0, 0, 0)], 0, 0, 0⟩

/-- Test body at (2,0,0) at rest whose recorded samples came closer
(distance 1) one step ago and moved back out. -/
def bodyG : Body :=
  ⟨"G", 0, 2, 0, 0, 0, 0, 0, 1, 0, 0, 0, 0, 0, [(2, 0, 0), (1, 0, 0)], 0, 0, 0⟩

/-- Test system for the closeness scan, with Δt = 0 (paused on the
previous step) so the step replays the current positions. -/
def sysC9 : Asystem := ⟨0, [], [bodyF, bodyG], 0, []⟩

/-- Test body with three recorded trajectory samples. -/
def bodyH : Body :=
  ⟨"H", 0, 0, 0, 0, 0, 0, 0, 1, 0, 0, 0, 0, 0,
    [(0, 0, 0), (0, 0, 0), (0, 0, 0)], 0, 0, 0⟩

/-- Position/mass carrier at (-3, 0, 0) for the three-body collision
construction below. -/
def stub1 : Body := ⟨"P1", 0, -3, 0, 0, 0, 0, 0, 1, 0, 0, 0, 0, 0, [], 0, 0, 0⟩

/-- Position/mass carrier at (3, 0, 0). -/
def stub2 : Body := ⟨"P2", 0, 3, 0, 0, 0, 0, 0, 1, 0, 0, 0, 0, 0, [], 0, 0, 0⟩

/-- Position/mass carrier at (0, 4, 0). -/
def stub3 : Body := ⟨"P3", 0, 0, 4, 0, 0, 0, 0, 1, 0, 0, 0, 0, 0, [], 0, 0, 0⟩

/-- Body at (-3, 0, 0) whose velocity is chosen so that after one unit
step (velocity kick from the forces, then position update) it lands
exactly at the origin. -/
def body1P : Body :=
  { stub1 with
    Vx := 3 - ((contrib cfg0 stub1 stub2).1 + (contrib cfg0 stub1 stub3).1)
    Vy := -((contrib cfg0 stub1 stub2).2.1 + (contrib cfg0 stub1 stub3).2.1)
    Vz := -((contrib cfg0 stub1 stub2).2.2 + (contrib cfg0 stub1 stub3).2.2) }

/-- Body at (3, 0, 0) whose velocity is chosen so that after one unit step
it also lands exactly at the origin, coinciding with `body1P`. -/
def body2P : Body :=
  { stub2 with
    Vx := -3 - ((contrib cfg0 stub2 stub1).1 + (contrib cfg0 stub2 stub3).1)
    Vy := -((contrib cfg0 stub2 stub1).2.1 + (contrib cfg0 stub2 stub3).2.1)
    Vz := -((contrib cfg0 stub2 stub1).2.2 + (contrib cfg0 stub2 stub3).2.2) }

/-- Three-body system with pairwise distinct positions and positive masses
whose first two bodies coincide exactly after one step. -/
def sysP : Asystem := ⟨1, [], [body1P, body2P, stub3], 0, []⟩

/-- Position/mass carrier at the origin (the collision point). -/
def stubO : Body := ⟨"O", 0, 0, 0, 0, 0, 0, 0, 1, 0, 0, 0, 0, 0, [], 0, 0, 0⟩

/-- Position/mass carrier at (0, 492/125, 0), the third body's position
after the first step. -/
def stub3b : Body :=
  ⟨"Q", 0, 0, 492 / 125, 0, 0, 0, 0, 1, 0, 0, 0, 0, 0, [], 0, 0, 0⟩

end

lemma sq3_nonneg (a b c : ℝ) : 0 ≤ a ^ 2 + b ^ 2 + c ^ 2 := by positivity

lemma sq3_eq_zero_iff (a b c : ℝ) :
    a ^ 2 + b ^ 2 + c ^ 2 = 0 ↔ a = 0 ∧ b = 0 ∧ c = 0 := by
  constructor
  · intro h
    refine ⟨?_, ?_, ?_⟩ <;>
      · rw [← pow_eq_zero_iff (n := 2) two_ne_zero]
        nlinarith [sq_nonneg a, sq_nonneg b, sq_nonneg c]
  · rintro ⟨ha, hb, hc⟩
    simp [ha, hb, hc]

lemma bodyDist_eq_zero_iff (b o : Body) :
    bodyDist b o = 0 ↔ posOf o = posOf b := by
  unfold bodyDist
  rw [Real.sqrt_eq_zero (sq3_nonneg _ _ _), sq3_eq_zero_iff]
  simp [posOf, Prod.ext_iff, sub_eq_zero]

lemma sameExceptF_refl (b : Body) : sameExceptF b b := by
  simp [sameExceptF]

lemma cal_netforce_sameExceptF (cfg : Config) (b o : Body) :
    sameExceptF (b.cal_netforce cfg o) b := by
  simp [sameExceptF, Body.cal_netforce]

lemma sameExceptF_trans {a b c : Body} (h1 : sameExceptF a b)
    (h2 : sameExceptF b c) : sameExceptF a c := by
  unfold sameExceptF at *
  obtain ⟨e1, e2, e3, e4, e5, e6, e7, e8, e9, e10, e11, e12, e13, e14, e15⟩ := h1
  obtain ⟨f1, f2, f3, f4, f5, f6, f7, f8, f9, f10, f11, f12, f13, f14, f15⟩ := h2
  exact ⟨e1.trans f1, e2.trans f2, e3.trans f3, e4.trans f4, e5.trans f5,
    e6.trans f6, e7.trans f7, e8.trans f8, e9.trans f9, e10.trans f10,
    e11.trans f11, e12.trans f12, e13.trans f13, e14.trans f14, e15.trans f15⟩

lemma bodyDist_congr {a b : Body} (o : Body) (h : sameExceptF a b) :
    bodyDist a o = bodyDist b o := by
  obtain ⟨-, -, h3, h4, h5, -⟩ := h
  unfold bodyDist
  rw [h3, h4, h5]

lemma contrib_congr (cfg : Config) {a b : Body} (o : Body)
    (h : sameExceptF a b) : contrib cfg a o = contrib cfg b o := by
  obtain ⟨-, -, h3, h4, h5, -, -, -, h9, -⟩ := h
  unfold contrib
  rw [h3, h4, h5, h9]

lemma forceLoop_sameExceptF (cfg : Config) (i : ℕ) :
    ∀ (l : List (ℕ × Body)) (b : Body),
      sameExceptF (forceLoop cfg i b l).1 b := by
  intro l
  induction l with
  | nil => intro b; exact sameExceptF_refl b
  | cons p rest ih =>
    intro b
    rw [forceLoop]
    by_cases hp : p.1 = i
    · simpa [hp] using ih b
    · by_cases hd : bodyDist b p.2 = 0
      · simp [hp, hd, sameExceptF_refl]
      · simpa [hp, hd] using
          sameExceptF_trans (ih (b.cal_netforce cfg p.2))
            (cal_netforce_sameExceptF cfg b p.2)

lemma forceLoop_proj (cfg : Config) (i : ℕ) (f : Body → ℝ)
    (g : Body → Body → ℝ)
    (hf : ∀ b o, f (b.cal_netforce cfg o) = f b + g b o)
    (hg : ∀ a b o, sameExceptF a b → g a o = g b o) :
    ∀ (l : List (ℕ × Body)) (b : Body),
      (∀ p ∈ l, p.1 ≠ i → bodyDist b p.2 ≠ 0) →
      (forceLoop cfg i b l).2 = false ∧
      f (forceLoop cfg i b l).1 =
        f b + (l.map fun p => if p.1 = i then 0 else g b p.2).sum := by
  intro l
  induction l with
  | nil => intro b _; simp [forceLoop]
  | cons p rest ih =>
    intro b hb
    rw [forceLoop]
    by_cases hp : p.1 = i
    · have := ih b (fun q hq => hb q (List.mem_cons_of_mem p hq))
      simpa [hp] using this
    · have hd : bodyDist b p.2 ≠ 0 := hb p (List.mem_cons_self p rest) hp
      have hb2 : ∀ q ∈ rest, q.1 ≠ i → bodyDist (b.cal_netforce cfg p.2) q.2 ≠ 0 := by
        intro q hq hqi
        rw [bodyDist_congr q.2 (cal_netforce_sameExceptF cfg b p.2)]
        exact hb q (List.mem_cons_of_mem p hq) hqi
      have := ih (b.cal_netforce cfg p.2) hb2
      rcases this with ⟨h1, h2⟩
      refine ⟨by simpa [hp, hd] using h1, ?_⟩
      have hgc : ∀ q : ℕ × Body,
          g (b.cal_netforce cfg p.2) q.2 = g b q.2 := fun q =>
        hg _ _ _ (cal_netforce_sameExceptF cfg b p.2)
      simp only [hp, hd, if_neg, ite_false]
      simp only [List.map_cons, List.sum_cons, if_neg hp]
      rw [h2, hf]
      have : (rest.map fun q => if q.1 = i then 0 else g (b.cal_netforce cfg p.2) q.2) =
          rest.map fun q => if q.1 = i then 0 else g b q.2 := by
        apply List.map_congr_left
        intro q _
        by_cases hq : q.1 = i
        · simp [hq]
        · simp [hq, hgc q]
      rw [this]
      ring

lemma zeroF_sameExceptF (b : Body) : sameExceptF b.zeroF b := by
  simp [sameExceptF, Body.zeroF]

lemma sameExceptF_pos {a b : Body} (h : sameExceptF a b) : posOf a = posOf b := by
  obtain ⟨-, -, h3, h4, h5, -⟩ := h
  simp [posOf, h3, h4, h5]

lemma sameExceptF_vel {a b : Body} (h : sameExceptF a b) : velOf a = velOf b := by
  obtain ⟨-, -, -, -, -, h6, h7, h8, -⟩ := h
  simp [velOf, h6, h7, h8]

lemma sameExceptF_mass {a b : Body} (h : sameExceptF a b) : a.mass = b.mass :=
  h.2.2.2.2.2.2.2.2.1

lemma mem_enum_getD {l : List Body} {p : ℕ × Body} (hp : p ∈ l.enum) :
    p.1 < l.length ∧ p.2 = l.getD p.1 default := by
  rw [List.mem_enum_iff_getElem?, List.getElem?_eq_some] at hp
  obtain ⟨h, he⟩ := hp
  exact ⟨h, by rw [List.getD_eq_getElem l default h, he]⟩

lemma getD_mem_enum {l : List Body} {j : ℕ} (hj : j < l.length) :
    (j, l.getD j default) ∈ l.enum := by
  rw [List.mem_enum_iff_getElem?, List.getElem?_eq_some]
  exact ⟨hj, (List.getD_eq_getElem l default hj).symm⟩

lemma forceLoop_err (cfg : Config) (i : ℕ) :
    ∀ (l : List (ℕ × Body)) (b : Body),
      (∃ p ∈ l, p.1 ≠ i ∧ bodyDist b p.2 = 0) →
      (forceLoop cfg i b l).2 = true := by
  intro l
  induction l with
  | nil => intro b h; simp at h
  | cons p rest ih =>
    intro b h
    rw [forceLoop]
    by_cases hp : p.1 = i
    · rcases h with ⟨q, hq, hqi, hqd⟩
      rcases List.mem_cons.mp hq with rfl | hq2
      · exact absurd hp hqi
      · simpa [hp] using ih b ⟨q, hq2, hqi, hqd⟩
    · by_cases hd : bodyDist b p.2 = 0
      · simp [hp, hd]
      · rcases h with ⟨q, hq, hqi, hqd⟩
        rcases List.mem_cons.mp hq with rfl | hq2
        · exact absurd hqd hd
        · have : bodyDist (b.cal_netforce cfg p.2) q.2 = 0 := by
            rw [bodyDist_congr q.2 (cal_netforce_sameExceptF cfg b p.2)]
            exact hqd
          simpa [hp, hd] using
            ih (b.cal_netforce cfg p.2) ⟨q, hq2, hqi, this⟩

lemma forceLoop_noerr (cfg : Config) (i : ℕ) (l : List (ℕ × Body)) (b : Body)
    (h : ∀ p ∈ l, p.1 ≠ i → bodyDist b p.2 ≠ 0) :
    (forceLoop cfg i b l).2 = false :=
  (forceLoop_proj cfg i (fun _ => 0) (fun _ _ => 0) (by simp) (by simp) l b h).1

lemma noCoincidence_loop_hyp {bodies : List Body} {i : ℕ} {b : Body}
    (hb : posOf b = posOf (bodies.getD i default))
    (h : ∀ j, j < bodies.length → j ≠ i →
      posOf (bodies.getD j default) ≠ posOf (bodies.getD i default)) :
    ∀ p ∈ bodies.enum, p.1 ≠ i → bodyDist b.zeroF p.2 ≠ 0 := by
  intro p hp hpi
  obtain ⟨hlt, hpe⟩ := mem_enum_getD hp
  rw [bodyDist_congr p.2 (zeroF_sameExceptF b), Ne, bodyDist_eq_zero_iff, hpe, hb]
  exact h p.1 hlt hpi

lemma compute1_ok (cfg : Config) (dt : ℝ) (bodies : List Body) (i : ℕ) (b : Body)
    (hb : posOf b = posOf (bodies.getD i default))
    (h : ∀ j, j < bodies.length → j ≠ i →
      posOf (bodies.getD j default) ≠ posOf (bodies.getD i default)) :
    compute1 cfg dt bodies i b =
      ((forceLoop cfg i b.zeroF bodies.enum).1.cal_velocity dt, false) := by
  have hz := forceLoop_noerr cfg i bodies.enum b.zeroF (noCoincidence_loop_hyp hb h)
  simp only [compute1]
  rw [if_neg (by simp [hz])]

lemma compute1_err (cfg : Config) (dt : ℝ) (bodies : List Body) (i : ℕ) (b : Body)
    (hb : posOf b = posOf (bodies.getD i default))
    (j : ℕ) (hj : j < bodies.length) (hji : j ≠ i)
    (hcoin : posOf (bodies.getD j default) = posOf (bodies.getD i default)) :
    (compute1 cfg dt bodies i b).2 = true ∧
    velOf (compute1 cfg dt bodies i b).1 = velOf b ∧
    posOf (compute1 cfg dt bodies i b).1 = posOf b := by
  have herr : (forceLoop cfg i b.zeroF bodies.enum).2 = true := by
    apply forceLoop_err cfg i bodies.enum b.zeroF
    refine ⟨(j, bodies.getD j default), getD_mem_enum hj, hji, ?_⟩
    rw [bodyDist_congr _ (zeroF_sameExceptF b), bodyDist_eq_zero_iff, hcoin, hb]
  have hfr := forceLoop_sameExceptF cfg i bodies.enum b.zeroF
  simp only [compute1]
  rw [if_pos herr]
  refine ⟨herr, ?_, ?_⟩
  · rw [sameExceptF_vel hfr, sameExceptF_vel (zeroF_sameExceptF b)]
  · rw [sameExceptF_pos hfr, sameExceptF_pos (zeroF_sameExceptF b)]

lemma if_collision_fst_system (cfg : Config) (bT : Bool) (s : Asystem) :
    (if_collision cfg bT s).1.system = s.system := by
  unfold if_collision
  by_cases h1 : bT = false <;> by_cases h2 : (collisionScan s.system).2 <;>
    simp [h1, h2]

lemma if_collision_fst_count (cfg : Config) (bT : Bool) (s : Asystem) :
    (if_collision cfg bT s).1.count = s.count := by
  unfold if_collision
  by_cases h1 : bT = false <;> by_cases h2 : (collisionScan s.system).2 <;>
    simp [h1, h2]

lemma if_collision_fst_closeness (cfg : Config) (bT : Bool) (s : Asystem) :
    (if_collision cfg bT s).1.closeness = s.closeness := by
  unfold if_collision
  by_cases h1 : bT = false <;> by_cases h2 : (collisionScan s.system).2 <;>
    simp [h1, h2]

lemma if_collision_fst_collisions (cfg : Config) (bT : Bool) (s : Asystem) :
    (if_collision cfg bT s).1.collisions = (collisionScan s.system).1 := by
  unfold if_collision
  by_cases h1 : bT = false <;> by_cases h2 : (collisionScan s.system).2 <;>
    simp [h1, h2]

lemma if_collision_fst_DELTA_T (cfg : Config) (bT : Bool) (s : Asystem) :
    (if_collision cfg bT s).1.DELTA_T =
      if bT = false then 0
      else if (collisionScan s.system).2 then cfg.FINE_DELTA_T
      else cfg.NORM_DELTA_T := by
  unfold if_collision
  by_cases h1 : bT = false <;> by_cases h2 : (collisionScan s.system).2 <;>
    simp [h1, h2]

lemma if_collision_snd_isSome (cfg : Config) (bT : Bool) (s : Asystem) :
    (if_collision cfg bT s).2.isSome =
      (bT && (collisionScan s.system).2) := by
  unfold if_collision
  by_cases h1 : bT = false <;> by_cases h2 : (collisionScan s.system).2 <;>
    simp [h1, h2]

lemma phase1_reset (cfg : Config) (s : Asystem) :
    phase1 cfg { s with closeness := [] } = phase1 cfg s := rfl

lemma animate_sys_system (cfg : Config) (bT : Bool) (s : Asystem) :
    (animate cfg bT s).sys.system =
      ((phase1 cfg s).map Prod.fst).map (compute2 cfg s.DELTA_T) := by
  unfold animate
  simp only [phase1_reset]
  rw [if_collision_fst_system]

lemma animate_sys_count (cfg : Config) (bT : Bool) (s : Asystem) :
    (animate cfg bT s).sys.count = s.count + 1 := by
  unfold animate
  simp only []
  rw [if_collision_fst_count]

lemma animate_sys_closeness (cfg : Config) (bT : Bool) (s : Asystem) :
    (animate cfg bT s).sys.closeness = [] := by
  unfold animate
  simp only []
  rw [if_collision_fst_closeness]

lemma animate_sys_length (cfg : Config) (bT : Bool) (s : Asystem) :
    (animate cfg bT s).sys.system.length = s.system.length := by
  rw [animate_sys_system]
  simp [phase1, List.enum_length]

lemma phase1_getElem? (cfg : Config) (s : Asystem) (i : ℕ) :
    (phase1 cfg s)[i]? =
      (s.system[i]?).map fun b => compute1 cfg s.DELTA_T s.system i b := by
  unfold phase1
  rw [List.getElem?_map, List.getElem?_enum]
  cases s.system[i]? <;> simp

lemma getElem?_getD {l : List Body} {i : ℕ} (hi : i < l.length) :
    l[i]? = some (l.getD i default) := by
  rw [List.getElem?_eq_some]
  exact ⟨hi, (List.getD_eq_getElem l default hi).symm⟩

lemma animate_body (cfg : Config) (bT : Bool) (s : Asystem) (i : ℕ)
    (hi : i < s.system.length) :
    (animate cfg bT s).sys.system.getD i default =
      compute2 cfg s.DELTA_T
        (compute1 cfg s.DELTA_T s.system i (s.system.getD i default)).1 := by
  rw [animate_sys_system, List.getD_eq_getElem?_getD, List.getElem?_map,
    List.getElem?_map, phase1_getElem?, getElem?_getD hi]
  simp

lemma animate_errs_eq (cfg : Config) (bT : Bool) (s : Asystem) :
    (animate cfg bT s).errs =
      ((phase1 cfg s).enum.filter (fun p => p.2.2)).map (fun p => p.1) := rfl

lemma phase1_length (cfg : Config) (s : Asystem) :
    (phase1 cfg s).length = s.system.length := by
  simp [phase1, List.enum_length]

lemma phase1_getD (cfg : Config) (s : Asystem) (i : ℕ)
    (hi : i < s.system.length) :
    (phase1 cfg s).getD i default =
      compute1 cfg s.DELTA_T s.system i (s.system.getD i default) := by
  rw [List.getD_eq_getElem?_getD, phase1_getElem?, getElem?_getD hi]
  rfl

lemma animate_errs_mem (cfg : Config) (bT : Bool) (s : Asystem) (i : ℕ)
    (hi : i < s.system.length) :
    i ∈ (animate cfg bT s).errs ↔
      (compute1 cfg s.DELTA_T s.system i (s.system.getD i default)).2 = true := by
  rw [animate_errs_eq, List.mem_map]
  constructor
  · rintro ⟨p, hp, rfl⟩
    rw [List.mem_filter] at hp
    obtain ⟨hmem, hflag⟩ := hp
    rw [List.mem_enum_iff_getElem?, phase1_getElem?] at hmem
    rw [Option.map_eq_some'] at hmem
    obtain ⟨b, hbsome, hbeq⟩ := hmem
    rw [List.getElem?_eq_some] at hbsome
    obtain ⟨hlt, hbget⟩ := hbsome
    rw [List.getD_eq_getElem s.system default hlt, hbget, hbeq]
    exact hflag
  · intro hflag
    refine ⟨(i, compute1 cfg s.DELTA_T s.system i (s.system.getD i default)),
      ?_, rfl⟩
    rw [List.mem_filter]
    refine ⟨?_, by simpa using hflag⟩
    rw [List.mem_enum_iff_getElem?, phase1_getElem?, getElem?_getD hi]
    rfl

lemma sameExceptF_coord {a b : Body} (h : sameExceptF a b) : a.coord = b.coord :=
  h.2.2.2.2.2.2.2.2.2.2.2.2.2.2

lemma sameExceptF_time {a b : Body} (h : sameExceptF a b) : a.time = b.time :=
  h.2.1

lemma sameExceptF_radius {a b : Body} (h : sameExceptF a b) : a.radius = b.radius :=
  h.2.2.2.2.2.2.2.2.2.1

lemma sameExceptF_ident {a b : Body} (h : sameExceptF a b) : a.ident = b.ident :=
  h.1

lemma cal_velocity_x (dt : ℝ) (b : Body) : (b.cal_velocity dt).x = b.x := rfl

lemma cal_velocity_y (dt : ℝ) (b : Body) : (b.cal_velocity dt).y = b.y := rfl

lemma cal_velocity_z (dt : ℝ) (b : Body) : (b.cal_velocity dt).z = b.z := rfl

lemma cal_velocity_pos (dt : ℝ) (b : Body) : posOf (b.cal_velocity dt) = posOf b := rfl

lemma cal_velocity_Vx (dt : ℝ) (b : Body) :
    (b.cal_velocity dt).Vx = b.Vx + b.Fx * dt / b.mass := rfl

lemma cal_velocity_Vy (dt : ℝ) (b : Body) :
    (b.cal_velocity dt).Vy = b.Vy + b.Fy * dt / b.mass := rfl

lemma cal_velocity_Vz (dt : ℝ) (b : Body) :
    (b.cal_velocity dt).Vz = b.Vz + b.Fz * dt / b.mass := rfl

lemma cal_velocity_coord (dt : ℝ) (b : Body) : (b.cal_velocity dt).coord = b.coord := rfl

lemma cal_velocity_time (dt : ℝ) (b : Body) : (b.cal_velocity dt).time = b.time := rfl

lemma cal_velocity_mass (dt : ℝ) (b : Body) : (b.cal_velocity dt).mass = b.mass := rfl

lemma cal_velocity_radius (dt : ℝ) (b : Body) : (b.cal_velocity dt).radius = b.radius := rfl

lemma cal_velocity_ident (dt : ℝ) (b : Body) : (b.cal_velocity dt).ident = b.ident := rfl

lemma cal_velocity_Fx (dt : ℝ) (b : Body) : (b.cal_velocity dt).Fx = b.Fx := rfl

lemma compute2_x (cfg : Config) (dt : ℝ) (b : Body) :
    (compute2 cfg dt b).x = b.x + b.Vx * dt := rfl

lemma compute2_y (cfg : Config) (dt : ℝ) (b : Body) :
    (compute2 cfg dt b).y = b.y + b.Vy * dt := rfl

lemma compute2_z (cfg : Config) (dt : ℝ) (b : Body) :
    (compute2 cfg dt b).z = b.z + b.Vz * dt := rfl

lemma compute2_vel (cfg : Config) (dt : ℝ) (b : Body) :
    velOf (compute2 cfg dt b) = velOf b := rfl

lemma compute2_mass (cfg : Config) (dt : ℝ) (b : Body) :
    (compute2 cfg dt b).mass = b.mass := rfl

lemma compute2_coord (cfg : Config) (dt : ℝ) (b : Body) :
    (compute2 cfg dt b).coord =
      b.coord ++ [(b.x + b.Vx * dt, b.y + b.Vy * dt, b.z + b.Vz * dt)] := rfl

lemma compute2_time (cfg : Config) (dt : ℝ) (b : Body) :
    (compute2 cfg dt b).time = b.time + dt / cfg.SEC_PER_DAY := rfl

lemma compute1_frame (cfg : Config) (dt : ℝ) (bodies : List Body) (i : ℕ)
    (b : Body) :
    posOf (compute1 cfg dt bodies i b).1 = posOf b ∧
    (compute1 cfg dt bodies i b).1.coord = b.coord ∧
    (compute1 cfg dt bodies i b).1.time = b.time ∧
    (compute1 cfg dt bodies i b).1.mass = b.mass ∧
    (compute1 cfg dt bodies i b).1.radius = b.radius ∧
    (compute1 cfg dt bodies i b).1.ident = b.ident := by
  have h := sameExceptF_trans (forceLoop_sameExceptF cfg i bodies.enum b.zeroF)
    (zeroF_sameExceptF b)
  simp only [compute1]
  split
  · exact ⟨sameExceptF_pos h, sameExceptF_coord h, sameExceptF_time h,
      sameExceptF_mass h, sameExceptF_radius h, sameExceptF_ident h⟩
  · dsimp only
    exact ⟨(cal_velocity_pos _ _).trans (sameExceptF_pos h),
      (cal_velocity_coord _ _).trans (sameExceptF_coord h),
      (cal_velocity_time _ _).trans (sameExceptF_time h),
      (cal_velocity_mass _ _).trans (sameExceptF_mass h),
      (cal_velocity_radius _ _).trans (sameExceptF_radius h),
      (cal_velocity_ident _ _).trans (sameExceptF_ident h)⟩

/-- C1: one simulation step runs the force+velocity phase (`compute1`) for
all bodies and only then the position phase (`compute2`), with a join
barrier between them: the force+velocity phase leaves every body's position
(and trajectory, time stamp, mass, radius, identity) unchanged, the stepped
body list is exactly the position pass mapped over the completed
force+velocity pass, every `compute1` task reads only the pre-step body
list, and the velocity each body carries out of the step is the one its
`compute1` task computed from the positions all bodies held at the start of
the step. -/
theorem c1_phase_order (cfg : Config) (bT : Bool) (s : Asystem) (i : ℕ)
    (hi : i < s.system.length) :
    posOf (compute1 cfg s.DELTA_T s.system i (s.system.getD i default)).1 =
      posOf (s.system.getD i default) ∧
    (compute1 cfg s.DELTA_T s.system i (s.system.getD i default)).1.coord =
      (s.system.getD i default).coord ∧
    (compute1 cfg s.DELTA_T s.system i (s.system.getD i default)).1.time =
      (s.system.getD i default).time ∧
    (animate cfg bT s).sys.system =
      ((phase1 cfg s).map Prod.fst).map (compute2 cfg s.DELTA_T) ∧
    (animate cfg bT s).sys.system.getD i default =
      compute2 cfg s.DELTA_T
        (compute1 cfg s.DELTA_T s.system i (s.system.getD i default)).1 ∧
    velOf ((animate cfg bT s).sys.system.getD i default) =
      velOf (compute1 cfg s.DELTA_T s.system i (s.system.getD i default)).1 := by
  obtain ⟨h1, h2, h3, -⟩ := compute1_frame cfg s.DELTA_T s.system i
    (s.system.getD i default)
  refine ⟨h1, h2, h3, animate_sys_system cfg bT s, animate_body cfg bT s i hi, ?_⟩
  rw [animate_body cfg bT s i hi, compute2_vel]

/-- Witness for C1 at a concrete two-body system. -/
theorem c1_phase_order_witness :
    0 < sysAB.system.length ∧
    posOf (compute1 cfg0 sysAB.DELTA_T sysAB.system 0 (sysAB.system.getD 0 default)).1 =
      posOf (sysAB.system.getD 0 default) :=
  ⟨by simp [sysAB], (c1_phase_order cfg0 true sysAB 0 (by simp [sysAB])).1⟩

lemma sameExceptF_x {a b : Body} (h : sameExceptF a b) : a.x = b.x := h.2.2.1

lemma sameExceptF_y {a b : Body} (h : sameExceptF a b) : a.y = b.y := h.2.2.2.1

lemma sameExceptF_z {a b : Body} (h : sameExceptF a b) : a.z = b.z := h.2.2.2.2.1

lemma sameExceptF_Vx {a b : Body} (h : sameExceptF a b) : a.Vx = b.Vx :=
  h.2.2.2.2.2.1

lemma sameExceptF_Vy {a b : Body} (h : sameExceptF a b) : a.Vy = b.Vy :=
  h.2.2.2.2.2.2.1

lemma sameExceptF_Vz {a b : Body} (h : sameExceptF a b) : a.Vz = b.Vz :=
  h.2.2.2.2.2.2.2.1

lemma compute2_Vx (cfg : Config) (dt : ℝ) (b : Body) : (compute2 cfg dt b).Vx = b.Vx := rfl

lemma compute2_Vy (cfg : Config) (dt : ℝ) (b : Body) : (compute2 cfg dt b).Vy = b.Vy := rfl

lemma compute2_Vz (cfg : Config) (dt : ℝ) (b : Body) : (compute2 cfg dt b).Vz = b.Vz := rfl

/-- C4: with the fully accumulated force `F` of the step, the velocity
update yields `V_new = V_old + (F / mass) * Δt`, the subsequent position
update yields `P_new = P_old + V_new * Δt` (semi-implicit Euler: the
already-updated velocity), exactly `P_new` is appended to the trajectory,
and the time stamp advances by exactly `Δt / SEC_PER_DAY`. -/
theorem c4_integrator (cfg : Config) (bT : Bool) (s : Asystem) (i : ℕ)
    (hi : i < s.system.length)
    (hm : 0 < (s.system.getD i default).mass)
    (hd : ∀ j, j < s.system.length → j ≠ i →
      posOf (s.system.getD j default) ≠ posOf (s.system.getD i default)) :
    ((animate cfg bT s).sys.system.getD i default).Vx =
      (s.system.getD i default).Vx +
        (forceLoop cfg i (s.system.getD i default).zeroF s.system.enum).1.Fx /
          (s.system.getD i default).mass * s.DELTA_T ∧
    ((animate cfg bT s).sys.system.getD i default).Vy =
      (s.system.getD i default).Vy +
        (forceLoop cfg i (s.system.getD i default).zeroF s.system.enum).1.Fy /
          (s.system.getD i default).mass * s.DELTA_T ∧
    ((animate cfg bT s).sys.system.getD i default).Vz =
      (s.system.getD i default).Vz +
        (forceLoop cfg i (s.system.getD i default).zeroF s.system.enum).1.Fz /
          (s.system.getD i default).mass * s.DELTA_T ∧
    ((animate cfg bT s).sys.system.getD i default).x =
      (s.system.getD i default).x +
        ((animate cfg bT s).sys.system.getD i default).Vx * s.DELTA_T ∧
    ((animate cfg bT s).sys.system.getD i default).y =
      (s.system.getD i default).y +
        ((animate cfg bT s).sys.system.getD i default).Vy * s.DELTA_T ∧
    ((animate cfg bT s).sys.system.getD i default).z =
      (s.system.getD i default).z +
        ((animate cfg bT s).sys.system.getD i default).Vz * s.DELTA_T ∧
    ((animate cfg bT s).sys.system.getD i default).coord =
      (s.system.getD i default).coord ++
        [(((animate cfg bT s).sys.system.getD i default).x,
          ((animate cfg bT s).sys.system.getD i default).y,
          ((animate cfg bT s).sys.system.getD i default).z)] ∧
    ((animate cfg bT s).sys.system.getD i default).time =
      (s.system.getD i default).time + s.DELTA_T / cfg.SEC_PER_DAY := by
  have hb := animate_body cfg bT s i hi
  have hc1 := compute1_ok cfg s.DELTA_T s.system i (s.system.getD i default) rfl hd
  have hE : sameExceptF
      (forceLoop cfg i (s.system.getD i default).zeroF s.system.enum).1
      (s.system.getD i default) :=
    sameExceptF_trans
      (forceLoop_sameExceptF cfg i s.system.enum (s.system.getD i default).zeroF)
      (zeroF_sameExceptF (s.system.getD i default))
  rw [hb, hc1]
  dsimp only
  simp only [compute2_Vx, compute2_Vy, compute2_Vz, compute2_x, compute2_y,
    compute2_z, compute2_coord, compute2_time, cal_velocity_Vx, cal_velocity_Vy,
    cal_velocity_Vz, cal_velocity_coord, cal_velocity_time, cal_velocity_mass]
  rw [sameExceptF_Vx hE, sameExceptF_Vy hE, sameExceptF_Vz hE,
    sameExceptF_mass hE, sameExceptF_coord hE, sameExceptF_time hE]
  have hx : (Body.cal_velocity s.DELTA_T
      (forceLoop cfg i (s.system.getD i default).zeroF s.system.enum).1).x =
      (s.system.getD i default).x := (cal_velocity_x _ _).trans (sameExceptF_x hE)
  have hy : (Body.cal_velocity s.DELTA_T
      (forceLoop cfg i (s.system.getD i default).zeroF s.system.enum).1).y =
      (s.system.getD i default).y := (cal_velocity_y _ _).trans (sameExceptF_y hE)
  have hz : (Body.cal_velocity s.DELTA_T
      (forceLoop cfg i (s.system.getD i default).zeroF s.system.enum).1).z =
      (s.system.getD i default).z := (cal_velocity_z _ _).trans (sameExceptF_z hE)
  rw [hx, hy, hz]
  refine ⟨by ring, by ring, by ring, rfl, rfl, rfl, rfl, rfl⟩

/-- Witness for C4 at a concrete two-body system. -/
theorem c4_integrator_witness :
    0 < (sysAB.system.getD 0 default).mass ∧
    ((animate cfg0 true sysAB).sys.system.getD 0 default).time =
      (sysAB.system.getD 0 default).time + sysAB.DELTA_T / cfg0.SEC_PER_DAY := by
  have hd : ∀ j, j < sysAB.system.length → j ≠ 0 →
      posOf (sysAB.system.getD j default) ≠ posOf (sysAB.system.getD 0 default) := by
    intro j hj hj0
    have hj2 : j < 2 := by simpa [sysAB] using hj
    interval_cases j
    · exact absurd rfl hj0
    · norm_num [sysAB, bodyA, bodyB, posOf, Prod.ext_iff]
  exact ⟨by norm_num [sysAB, bodyA],
    (c4_integrator cfg0 true sysAB 0 (by simp [sysAB])
      (by norm_num [sysAB, bodyA]) hd).2.2.2.2.2.2.2⟩

lemma mem_of_mem_enum {l : List Body} {p : ℕ × Body} (hp : p ∈ l.enum) :
    p.2 ∈ l := by
  rw [List.mem_enum_iff_getElem?, List.getElem?_eq_some] at hp
  obtain ⟨h, he⟩ := hp
  exact he ▸ List.getElem_mem h

lemma animate_coord_step (cfg : Config) (bT : Bool) (s : Asystem) :
    ∀ b ∈ (animate cfg bT s).sys.system,
      ∃ b0 ∈ s.system, b.coord.length = b0.coord.length + 1 := by
  intro b hb
  rw [animate_sys_system, List.mem_map] at hb
  obtain ⟨c, hc, rfl⟩ := hb
  rw [List.mem_map] at hc
  obtain ⟨q, hq, rfl⟩ := hc
  unfold phase1 at hq
  rw [List.mem_map] at hq
  obtain ⟨p, hp, rfl⟩ := hq
  refine ⟨p.2, mem_of_mem_enum hp, ?_⟩
  rw [compute2_coord,
    (compute1_frame cfg s.DELTA_T s.system p.1 p.2).2.1]
  simp

lemma animateN_coord_len (cfg : Config) (bT : Bool) (s0 : Asystem)
    (h0 : ∀ b ∈ s0.system, b.coord = []) :
    ∀ n, ∀ b ∈ (animateN cfg bT n s0).system, b.coord.length = n := by
  intro n
  induction n with
  | zero =>
    intro b hb
    rw [animateN] at hb
    rw [h0 b hb]
    rfl
  | succ n ih =>
    intro b hb
    rw [animateN] at hb
    obtain ⟨b0, hb0, hlen⟩ :=
      animate_coord_step cfg bT (animateN cfg bT n s0) b hb
    rw [hlen, ih b0 hb0]

/-- C10: every simulation step appends exactly one sample to every body's
trajectory, so after `n` steps from a freshly constructed system every
body's trajectory has length exactly `n`; in particular all trajectory
lists have equal length, and whenever one body of a pair has more than two
samples so does the other — which is what keeps `close_calc`'s negative
indexing into the second body's trajectory in bounds although it checks
only the first body's length. -/
theorem c10_trajectory_lengths (cfg : Config) (bT : Bool) (s0 : Asystem)
    (h0 : ∀ b ∈ s0.system, b.coord = []) (n : ℕ) :
    (∀ b ∈ (animateN cfg bT n s0).system, b.coord.length = n) ∧
    (∀ b ∈ (animate cfg bT (animateN cfg bT n s0)).sys.system,
      b.coord.length = n + 1) ∧
    (∀ b1 ∈ (animateN cfg bT n s0).system, ∀ b2 ∈ (animateN cfg bT n s0).system,
      2 < b1.coord.length → 2 < b2.coord.length) := by
  have hall := animateN_coord_len cfg bT s0 h0
  refine ⟨hall n, ?_, ?_⟩
  · intro b hb
    exact hall (n + 1) b (by rw [animateN]; exact hb)
  · intro b1 h1 b2 h2 hlen
    rw [hall n b2 h2]
    rw [hall n b1 h1] at hlen
    exact hlen

/-- Witness for C10: one step of a freshly constructed two-body system. -/
theorem c10_trajectory_lengths_witness :
    (∀ b ∈ sysAB.system, b.coord = []) ∧
    ∀ b ∈ (animateN cfg0 true 1 sysAB).system, b.coord.length = 1 := by
  have h0 : ∀ b ∈ sysAB.system, b.coord = [] := by
    intro b hb
    simp only [sysAB, List.mem_cons, List.not_mem_nil, or_false] at hb
    rcases hb with rfl | rfl
    · rfl
    · rfl
  exact ⟨h0, (c10_trajectory_lengths cfg0 true sysAB h0 1).1⟩

lemma collisionVisit_eq (bodies : List Body) (acc : List (String × String) × Bool)
    (i j : ℕ) :
    collisionVisit bodies acc i j =
      (acc.1 ++ (if j < i ∧ pairDist bodies i j ≤ radiusSum bodies i j
          then [identPair bodies i j] else []),
       if j < i ∧ pairDist bodies i j ≤ 30 * radiusSum bodies i j then true
       else acc.2) := by
  unfold collisionVisit
  by_cases h1 : i > j
  · have h1b : j < i := h1
    by_cases h2 : pairDist bodies i j ≤ 30 * radiusSum bodies i j <;>
      by_cases h3 : pairDist bodies i j ≤ radiusSum bodies i j <;>
      simp [h1, h1b, h2, h3]
  · have h1b : ¬ j < i := h1
    simp [h1, h1b]

lemma visitFold_fst (bodies : List Body) (i : ℕ) :
    ∀ (l : List ℕ) (acc : List (String × String) × Bool),
      (l.foldl (fun a j => collisionVisit bodies a i j) acc).1 =
        acc.1 ++ (l.filter fun j =>
          decide (j < i ∧ pairDist bodies i j ≤ radiusSum bodies i j)).map
          (fun j => identPair bodies i j) := by
  intro l
  induction l with
  | nil => intro acc; simp
  | cons j t ih =>
    intro acc
    rw [List.foldl_cons, ih, collisionVisit_eq]
    by_cases h : j < i ∧ pairDist bodies i j ≤ radiusSum bodies i j
    · simp [h]
    · simp [h]

lemma visitFold_snd (bodies : List Body) (i : ℕ) :
    ∀ (l : List ℕ) (acc : List (String × String) × Bool),
      ((l.foldl (fun a j => collisionVisit bodies a i j) acc).2 = true ↔
        acc.2 = true ∨
          ∃ j ∈ l, j < i ∧ pairDist bodies i j ≤ 30 * radiusSum bodies i j) := by
  intro l
  induction l with
  | nil => intro acc; simp
  | cons j t ih =>
    intro acc
    rw [List.foldl_cons, ih, collisionVisit_eq]
    by_cases h : j < i ∧ pairDist bodies i j ≤ 30 * radiusSum bodies i j
    · simp only [h, if_true, List.mem_cons]
      constructor
      · intro _; exact Or.inr ⟨j, Or.inl rfl, h⟩
      · intro _; left; rfl
    · simp only [h, if_neg, ite_false, List.mem_cons]
      constructor
      · rintro (ha | ⟨q, hq, hcond⟩)
        · exact Or.inl ha
        · exact Or.inr ⟨q, Or.inr hq, hcond⟩
      · rintro (ha | ⟨q, hq | hq, hcond⟩)
        · exact Or.inl ha
        · exact absurd (hq ▸ hcond) h
        · exact Or.inr ⟨q, hq, hcond⟩

lemma scanFold_fst (bodies : List Body) (inner : List ℕ) :
    ∀ (l : List ℕ) (acc : List (String × String) × Bool),
      (l.foldl (fun acc2 i =>
          inner.foldl (fun a j => collisionVisit bodies a i j) acc2) acc).1 =
        acc.1 ++ l.flatMap (fun i =>
          (inner.filter fun j =>
            decide (j < i ∧ pairDist bodies i j ≤ radiusSum bodies i j)).map
            (fun j => identPair bodies i j)) := by
  intro l
  induction l with
  | nil => intro acc; simp
  | cons i t ih =>
    intro acc
    rw [List.foldl_cons, ih, visitFold_fst, List.flatMap_cons, List.append_assoc]

lemma scanFold_snd (bodies : List Body) (inner : List ℕ) :
    ∀ (l : List ℕ) (acc : List (String × String) × Bool),
      ((l.foldl (fun acc2 i =>
          inner.foldl (fun a j => collisionVisit bodies a i j) acc2) acc).2 = true ↔
        acc.2 = true ∨ ∃ i ∈ l, ∃ j ∈ inner,
          j < i ∧ pairDist bodies i j ≤ 30 * radiusSum bodies i j) := by
  intro l
  induction l with
  | nil => intro acc; simp
  | cons i t ih =>
    intro acc
    rw [List.foldl_cons, ih, visitFold_snd]
    constructor
    · rintro ((ha | ⟨j, hj, hcond⟩) | ⟨q, hq, j, hj, hcond⟩)
      · exact Or.inl ha
      · exact Or.inr ⟨i, List.mem_cons_self i t, j, hj, hcond⟩
      · exact Or.inr ⟨q, List.mem_cons_of_mem i hq, j, hj, hcond⟩
    · rintro (ha | ⟨q, hq, j, hj, hcond⟩)
      · exact Or.inl (Or.inl ha)
      · rcases List.mem_cons.mp hq with rfl | hq2
        · exact Or.inl (Or.inr ⟨j, hj, hcond⟩)
        · exact Or.inr ⟨q, hq2, j, hj, hcond⟩

lemma range_filter_lt (i : ℕ) :
    ∀ n, i ≤ n → (List.range n).filter (fun j => decide (j < i)) = List.range i := by
  intro n
  induction n with
  | zero =>
    intro h
    have : i = 0 := Nat.le_zero.mp h
    simp [this]
  | succ n ih =>
    intro h
    by_cases hin : i ≤ n
    · rw [List.range_succ, List.filter_append, ih hin]
      have : ¬ n < i := by omega
      simp [this]
    · have : i = n + 1 := by omega
      subst this
      rw [List.filter_eq_self.mpr]
      intro a ha
      rw [List.mem_range] at ha
      simpa using ha

lemma filter_pair_cond (bodies : List Body) (i n : ℕ) (hin : i ≤ n)
    (C : ℕ → Prop) [DecidablePred C] :
    (List.range n).filter (fun j => decide (j < i ∧ C j)) =
      (List.range i).filter (fun j => decide (C j)) := by
  have h1 : (List.range n).filter (fun j => decide (j < i ∧ C j)) =
      ((List.range n).filter (fun j => decide (j < i))).filter
        (fun j => decide (C j)) := by
    rw [List.filter_filter]
    apply List.filter_congr
    intro a _
    rw [Bool.decide_and]
    rw [Bool.and_comm]
  rw [h1, range_filter_lt i n hin]

lemma allPairs_mem (n : ℕ) (p : ℕ × ℕ) :
    p ∈ allPairs n ↔ p.2 < p.1 ∧ p.1 < n := by
  unfold allPairs
  rw [List.mem_flatMap]
  constructor
  · rintro ⟨i, hi, hp⟩
    rw [List.mem_map] at hp
    obtain ⟨j, hj, rfl⟩ := hp
    rw [List.mem_range] at hi hj
    exact ⟨hj, hi⟩
  · rintro ⟨h1, h2⟩
    refine ⟨p.1, List.mem_range.mpr h2, ?_⟩
    rw [List.mem_map]
    exact ⟨p.2, List.mem_range.mpr h1, rfl⟩

lemma allPairs_nodup (n : ℕ) : (allPairs n).Nodup := by
  unfold allPairs
  rw [List.nodup_flatMap]
  constructor
  · intro i _
    exact (List.nodup_range i).map fun a b hab => (Prod.mk.injEq i a i b ▸ hab).2
  · apply List.Pairwise.imp ?_ (List.pairwise_lt_range n)
    intro a b hab
    intro p hpa hpb
    rw [List.mem_map] at hpa hpb
    obtain ⟨ja, -, rfl⟩ := hpa
    obtain ⟨jb, -, heq⟩ := hpb
    exact absurd (Prod.mk.injEq b jb a ja ▸ heq).1 (by omega)

lemma collisionScan_fst (bodies : List Body) :
    (collisionScan bodies).1 =
      ((allPairs bodies.length).filter fun p =>
        decide (pairDist bodies p.1 p.2 ≤ radiusSum bodies p.1 p.2)).map
        (fun p => identPair bodies p.1 p.2) := by
  unfold collisionScan
  rw [scanFold_fst]
  simp only [List.nil_append]
  unfold allPairs
  rw [List.filter_flatMap, List.map_flatMap]
  apply List.flatMap_congr
  intro i hi
  rw [List.mem_range] at hi
  rw [filter_pair_cond bodies i bodies.length (Nat.le_of_lt hi)]
  rw [List.filter_map, List.map_map]
  rfl

lemma collisionScan_snd (bodies : List Body) :
    ((collisionScan bodies).2 = true ↔
      ∃ i j, i < bodies.length ∧ j < i ∧
        pairDist bodies i j ≤ 30 * radiusSum bodies i j) := by
  unfold collisionScan
  rw [scanFold_snd]
  simp only [Bool.false_eq_true, false_or, List.mem_range]
  constructor
  · rintro ⟨i, hi, j, hj, hji, hcond⟩
    exact ⟨i, j, hi, hji, hcond⟩
  · rintro ⟨i, j, hi, hji, hcond⟩
    exact ⟨i, hi, j, by omega, hji, hcond⟩

lemma animate_sys_collisions (cfg : Config) (bT : Bool) (s : Asystem) :
    (animate cfg bT s).sys.collisions =
      (collisionScan ((animate cfg bT s).sys.system)).1 := by
  unfold animate
  dsimp only
  rw [if_collision_fst_collisions, if_collision_fst_system]

lemma animate_sys_DELTA_T (cfg : Config) (bT : Bool) (s : Asystem) :
    (animate cfg bT s).sys.DELTA_T =
      (if bT = false then 0
       else if (collisionScan ((animate cfg bT s).sys.system)).2 = true then
         cfg.FINE_DELTA_T
       else cfg.NORM_DELTA_T) := by
  unfold animate
  dsimp only
  rw [if_collision_fst_DELTA_T, if_collision_fst_system]

lemma if_collision_snd_toList_length (cfg : Config) (bT : Bool) (s : Asystem) :
    (if_collision cfg bT s).2.toList.length =
      if bT = true ∧ (collisionScan s.system).2 = true then 1 else 0 := by
  unfold if_collision
  by_cases h1 : bT = false <;> by_cases h2 : (collisionScan s.system).2 <;>
    simp [h1, h2]

lemma animate_snaps_length (cfg : Config) (bT : Bool) (s : Asystem) :
    (animate cfg bT s).snaps.length =
      (if s.count % cfg.SAVE_RATE = 0 then 1 else 0) +
        (if bT = true ∧ (collisionScan ((animate cfg bT s).sys.system)).2 = true
          then 1 else 0) := by
  unfold animate
  dsimp only
  rw [List.length_append, if_collision_snd_toList_length, if_collision_fst_system]
  by_cases hc : s.count % cfg.SAVE_RATE = 0 <;> simp [hc]

/-- C5: after the position update of a step, the collision scan stored in
the system classifies every unordered index pair exactly once (the pair
enumeration `allPairs` has no duplicates and contains exactly the pairs
`j < i < n`): the recorded collision events are exactly the pairs with
`d ≤ r_i + r_j` (so a pair at distance exactly the radius sum yields
exactly one event, and all simultaneously colliding pairs are reported),
and the near/collided flag is set iff some pair satisfies
`d ≤ 30 · (r_i + r_j)` (the configured proximity multiplier is 30). -/
theorem c5_collision_classification (cfg : Config) (bT : Bool) (s : Asystem)
    (bodies : List Body) :
    (animate cfg bT s).sys.collisions =
      (collisionScan ((animate cfg bT s).sys.system)).1 ∧
    (collisionScan bodies).1 =
      ((allPairs bodies.length).filter fun p =>
        decide (pairDist bodies p.1 p.2 ≤ radiusSum bodies p.1 p.2)).map
        (fun p => identPair bodies p.1 p.2) ∧
    (allPairs bodies.length).Nodup ∧
    (∀ p : ℕ × ℕ, p ∈ allPairs bodies.length ↔ p.2 < p.1 ∧ p.1 < bodies.length) ∧
    ((collisionScan bodies).2 = true ↔
      ∃ i j, i < bodies.length ∧ j < i ∧
        pairDist bodies i j ≤ 30 * radiusSum bodies i j) :=
  ⟨animate_sys_collisions cfg bT s, collisionScan_fst bodies,
    allPairs_nodup bodies.length, allPairs_mem bodies.length,
    collisionScan_snd bodies⟩

/-- C6: the time-step selection at the end of a step satisfies: when the
pause toggle is off the next Δt is 0; otherwise the next Δt is the fine
step exactly when some pair of the just-updated system was classified near
or collided (writing a snapshot at that moment, hence in particular on the
transition from the normal to the fine step), and the normal step
otherwise.  The snapshots a step emits are exactly the periodic one plus
the fine-step one. -/
theorem c6_timestep_policy (cfg : Config) (bT : Bool) (s : Asystem) :
    (animate cfg bT s).sys.DELTA_T =
      (if bT = false then 0
       else if (collisionScan ((animate cfg bT s).sys.system)).2 = true then
         cfg.FINE_DELTA_T
       else cfg.NORM_DELTA_T) ∧
    ((if_collision cfg bT s).2.isSome = (bT && (collisionScan s.system).2)) ∧
    (animate cfg bT s).snaps.length =
      (if s.count % cfg.SAVE_RATE = 0 then 1 else 0) +
        (if bT = true ∧ (collisionScan ((animate cfg bT s).sys.system)).2 = true
          then 1 else 0) :=
  ⟨animate_sys_DELTA_T cfg bT s, if_collision_snd_isSome cfg bT s,
    animate_snaps_length cfg bT s⟩

lemma cal_netforce_adds_contrib (cfg : Config) (b o : Body) :
    (b.cal_netforce cfg o).Fx = b.Fx + (contrib cfg b o).1 ∧
    (b.cal_netforce cfg o).Fy = b.Fy + (contrib cfg b o).2.1 ∧
    (b.cal_netforce cfg o).Fz = b.Fz + (contrib cfg b o).2.2 :=
  ⟨rfl, rfl, rfl⟩

lemma bodyDist_nonneg (b o : Body) : 0 ≤ bodyDist b o := Real.sqrt_nonneg _

lemma bodyDist_ne_zero {b o : Body} (h : posOf o ≠ posOf b) : bodyDist b o ≠ 0 := by
  rw [Ne, bodyDist_eq_zero_iff]
  exact h

lemma contrib_direction (cfg : Config) (b o : Body) :
    (contrib cfg b o).1 =
      cfg.GRAV_CONS * b.mass * o.mass / bodyDist b o ^ 2 *
        ((o.x - b.x) / bodyDist b o) ∧
    (contrib cfg b o).2.1 =
      cfg.GRAV_CONS * b.mass * o.mass / bodyDist b o ^ 2 *
        ((o.y - b.y) / bodyDist b o) ∧
    (contrib cfg b o).2.2 =
      cfg.GRAV_CONS * b.mass * o.mass / bodyDist b o ^ 2 *
        ((o.z - b.z) / bodyDist b o) := by
  unfold contrib bodyDist
  refine ⟨?_, ?_, ?_⟩ <;> ring

lemma contrib_magnitude (cfg : Config) (b o : Body)
    (hpos : posOf o ≠ posOf b) (hG : 0 ≤ cfg.GRAV_CONS)
    (hmb : 0 ≤ b.mass) (hmo : 0 ≤ o.mass) :
    Real.sqrt ((contrib cfg b o).1 ^ 2 + (contrib cfg b o).2.1 ^ 2 +
        (contrib cfg b o).2.2 ^ 2) =
      cfg.GRAV_CONS * b.mass * o.mass / bodyDist b o ^ 2 := by
  have hdne : bodyDist b o ≠ 0 := bodyDist_ne_zero hpos
  have hd0 : 0 ≤ bodyDist b o := bodyDist_nonneg b o
  have hcon : 0 ≤ cfg.GRAV_CONS * b.mass * o.mass / bodyDist b o ^ 2 := by
    positivity
  have hgd : 0 ≤ cfg.GRAV_CONS * b.mass * o.mass / bodyDist b o ^ 2 /
      bodyDist b o := div_nonneg hcon hd0
  have hS : 0 ≤ (o.x - b.x) ^ 2 + (o.y - b.y) ^ 2 + (o.z - b.z) ^ 2 :=
    sq3_nonneg _ _ _
  have hd2 : bodyDist b o ^ 2 =
      (o.x - b.x) ^ 2 + (o.y - b.y) ^ 2 + (o.z - b.z) ^ 2 :=
    Real.sq_sqrt hS
  obtain ⟨e1, e2, e3⟩ := contrib_direction cfg b o
  rw [e1, e2, e3]
  have hsum : (cfg.GRAV_CONS * b.mass * o.mass / bodyDist b o ^ 2 *
        ((o.x - b.x) / bodyDist b o)) ^ 2 +
      (cfg.GRAV_CONS * b.mass * o.mass / bodyDist b o ^ 2 *
        ((o.y - b.y) / bodyDist b o)) ^ 2 +
      (cfg.GRAV_CONS * b.mass * o.mass / bodyDist b o ^ 2 *
        ((o.z - b.z) / bodyDist b o)) ^ 2 =
      (cfg.GRAV_CONS * b.mass * o.mass / bodyDist b o ^ 2 / bodyDist b o) ^ 2 *
        ((o.x - b.x) ^ 2 + (o.y - b.y) ^ 2 + (o.z - b.z) ^ 2) := by
    ring
  rw [hsum, ← hd2, Real.sqrt_mul (sq_nonneg _), Real.sqrt_sq_eq_abs,
    abs_of_nonneg hgd, Real.sqrt_sq hd0]
  field_simp
  ring

lemma forceLoop_sum_contrib (cfg : Config) (bodies : List Body) (i : ℕ)
    (h : ∀ j, j < bodies.length → j ≠ i →
      posOf (bodies.getD j default) ≠ posOf (bodies.getD i default)) :
    (forceLoop cfg i (bodies.getD i default).zeroF bodies.enum).1.Fx =
      (bodies.enum.map fun p => if p.1 = i then 0
        else (contrib cfg (bodies.getD i default) p.2).1).sum ∧
    (forceLoop cfg i (bodies.getD i default).zeroF bodies.enum).1.Fy =
      (bodies.enum.map fun p => if p.1 = i then 0
        else (contrib cfg (bodies.getD i default) p.2).2.1).sum ∧
    (forceLoop cfg i (bodies.getD i default).zeroF bodies.enum).1.Fz =
      (bodies.enum.map fun p => if p.1 = i then 0
        else (contrib cfg (bodies.getD i default) p.2).2.2).sum := by
  have hhyp := noCoincidence_loop_hyp (b := bodies.getD i default) rfl h
  have hcongr : ∀ (o : Body),
      contrib cfg (bodies.getD i default).zeroF o =
        contrib cfg (bodies.getD i default) o := fun o =>
    contrib_congr cfg o (zeroF_sameExceptF (bodies.getD i default))
  refine ⟨?_, ?_, ?_⟩
  · have := (forceLoop_proj cfg i Body.Fx (fun b o => (contrib cfg b o).1)
      (fun b o => rfl) (fun a b o hab => by simp only [contrib_congr cfg o hab])
      bodies.enum (bodies.getD i default).zeroF hhyp).2
    rw [this]
    have hz : (bodies.getD i default).zeroF.Fx = 0 := rfl
    rw [hz, zero_add]
    apply congrArg List.sum
    apply List.map_congr_left
    intro p _
    by_cases hp : p.1 = i
    · simp [hp]
    · simp only [hp, if_neg, ite_false, hcongr p.2]
  · have := (forceLoop_proj cfg i Body.Fy (fun b o => (contrib cfg b o).2.1)
      (fun b o => rfl) (fun a b o hab => by simp only [contrib_congr cfg o hab])
      bodies.enum (bodies.getD i default).zeroF hhyp).2
    rw [this]
    have hz : (bodies.getD i default).zeroF.Fy = 0 := rfl
    rw [hz, zero_add]
    apply congrArg List.sum
    apply List.map_congr_left
    intro p _
    by_cases hp : p.1 = i
    · simp [hp]
    · simp only [hp, if_neg, ite_false, hcongr p.2]
  · have := (forceLoop_proj cfg i Body.Fz (fun b o => (contrib cfg b o).2.2)
      (fun b o => rfl) (fun a b o hab => by simp only [contrib_congr cfg o hab])
      bodies.enum (bodies.getD i default).zeroF hhyp).2
    rw [this]
    have hz : (bodies.getD i default).zeroF.Fz = 0 := rfl
    rw [hz, zero_add]
    apply congrArg List.sum
    apply List.map_congr_left
    intro p _
    by_cases hp : p.1 = i
    · simp [hp]
    · simp only [hp, if_neg, ite_false, hcongr p.2]

/-- C2: for two bodies at distinct positions, the contribution
`cal_netforce` adds to the accumulator of body `b` from body `o` is the
vector of magnitude `G · m_b · m_o / d²` directed along the unit vector
from `b` to `o`, obtained by componentwise decomposition `(Fx, Fy, Fz)`
(no spherical angles appear), and the accumulated net force of the force
loop is the componentwise sum of the contributions of every other body. -/
theorem c2_force_law (cfg : Config) (b o : Body)
    (hpos : posOf o ≠ posOf b) (hG : 0 ≤ cfg.GRAV_CONS)
    (hmb : 0 ≤ b.mass) (hmo : 0 ≤ o.mass) :
    ((b.cal_netforce cfg o).Fx = b.Fx + (contrib cfg b o).1 ∧
      (b.cal_netforce cfg o).Fy = b.Fy + (contrib cfg b o).2.1 ∧
      (b.cal_netforce cfg o).Fz = b.Fz + (contrib cfg b o).2.2) ∧
    ((contrib cfg b o).1 =
        cfg.GRAV_CONS * b.mass * o.mass / bodyDist b o ^ 2 *
          ((o.x - b.x) / bodyDist b o) ∧
      (contrib cfg b o).2.1 =
        cfg.GRAV_CONS * b.mass * o.mass / bodyDist b o ^ 2 *
          ((o.y - b.y) / bodyDist b o) ∧
      (contrib cfg b o).2.2 =
        cfg.GRAV_CONS * b.mass * o.mass / bodyDist b o ^ 2 *
          ((o.z - b.z) / bodyDist b o)) ∧
    Real.sqrt ((contrib cfg b o).1 ^ 2 + (contrib cfg b o).2.1 ^ 2 +
        (contrib cfg b o).2.2 ^ 2) =
      cfg.GRAV_CONS * b.mass * o.mass / bodyDist b o ^ 2 ∧
    (∀ (bodies : List Body) (i : ℕ),
      (∀ j, j < bodies.length → j ≠ i →
        posOf (bodies.getD j default) ≠ posOf (bodies.getD i default)) →
      (forceLoop cfg i (bodies.getD i default).zeroF bodies.enum).1.Fx =
        (bodies.enum.map fun p => if p.1 = i then 0
          else (contrib cfg (bodies.getD i default) p.2).1).sum ∧
      (forceLoop cfg i (bodies.getD i default).zeroF bodies.enum).1.Fy =
        (bodies.enum.map fun p => if p.1 = i then 0
          else (contrib cfg (bodies.getD i default) p.2).2.1).sum ∧
      (forceLoop cfg i (bodies.getD i default).zeroF bodies.enum).1.Fz =
        (bodies.enum.map fun p => if p.1 = i then 0
          else (contrib cfg (bodies.getD i default) p.2).2.2).sum) :=
  ⟨cal_netforce_adds_contrib cfg b o, contrib_direction cfg b o,
    contrib_magnitude cfg b o hpos hG hmb hmo,
    fun bodies i h => forceLoop_sum_contrib cfg bodies i h⟩

/-- Witness for C2 at two concrete bodies at distance 5. -/
theorem c2_force_law_witness :
    posOf bodyB ≠ posOf bodyA ∧
    Real.sqrt ((contrib cfg0 bodyA bodyB).1 ^ 2 +
        (contrib cfg0 bodyA bodyB).2.1 ^ 2 +
        (contrib cfg0 bodyA bodyB).2.2 ^ 2) =
      cfg0.GRAV_CONS * bodyA.mass * bodyB.mass / bodyDist bodyA bodyB ^ 2 := by
  have hpos : posOf bodyB ≠ posOf bodyA := by
    norm_num [bodyA, bodyB, posOf, Prod.ext_iff]
  exact ⟨hpos, (c2_force_law cfg0 bodyA bodyB hpos (by norm_num [cfg0])
    (by norm_num [bodyA]) (by norm_num [bodyB])).2.2.1⟩

lemma read_records (l : List Body) (h : ∀ b ∈ l, b.ident ≠ "ident") :
    read_from_file (l.map fun b => SnapLine.record (recordOf b)) =
      some (l.map fun b => bodyOfRecord (recordOf b)) := by
  induction l with
  | nil => rfl
  | cons b t ih =>
    have hb : (recordOf b).ident ≠ "ident" := h b (List.mem_cons_self b t)
    simp only [List.map_cons, read_from_file]
    rw [if_neg hb, ih (fun q hq => h q (List.mem_cons_of_mem b hq))]

/-- C8 (amended): the body-record lines of the snapshot round-trip — parsing
them back yields a body list of the same length whose bodies keep identity,
position, velocity, mass, radius, colors, texture and time stamp (provided
no body is literally named by the header token `"ident"`, which the reader
skips).  The full written snapshot does not round-trip: see the
counterexample, the reader chokes on the trailer lines. -/
theorem c8_record_roundtrip (s : Asystem)
    (h : ∀ b ∈ s.system, b.ident ≠ "ident") :
    read_from_file (s.system.map fun b => SnapLine.record (recordOf b)) =
      some (s.system.map fun b => bodyOfRecord (recordOf b)) ∧
    (s.system.map fun b => bodyOfRecord (recordOf b)).length =
      s.system.length ∧
    ∀ b ∈ s.system,
      (bodyOfRecord (recordOf b)).ident = b.ident ∧
      posOf (bodyOfRecord (recordOf b)) = posOf b ∧
      velOf (bodyOfRecord (recordOf b)) = velOf b ∧
      (bodyOfRecord (recordOf b)).mass = b.mass ∧
      (bodyOfRecord (recordOf b)).radius = b.radius ∧
      (bodyOfRecord (recordOf b)).color1 = b.color1 ∧
      (bodyOfRecord (recordOf b)).color2 = b.color2 ∧
      (bodyOfRecord (recordOf b)).color3 = b.color3 ∧
      (bodyOfRecord (recordOf b)).texture = b.texture ∧
      (bodyOfRecord (recordOf b)).time = b.time := by
  refine ⟨read_records s.system h, by rw [List.length_map], ?_⟩
  intro b _
  exact ⟨rfl, rfl, rfl, rfl, rfl, rfl, rfl, rfl, rfl, rfl⟩

/-- Witness for the amended C8 at a concrete two-body system. -/
theorem c8_record_roundtrip_witness :
    (∀ b ∈ sysAB.system, b.ident ≠ "ident") ∧
    read_from_file (sysAB.system.map fun b => SnapLine.record (recordOf b)) =
      some (sysAB.system.map fun b => bodyOfRecord (recordOf b)) := by
  have h : ∀ b ∈ sysAB.system, b.ident ≠ "ident" := by
    intro b hb
    simp only [sysAB, List.mem_cons, List.not_mem_nil, or_false] at hb
    rcases hb with rfl | rfl
    · simp [bodyA]
    · simp [bodyB]
  exact ⟨h, (c8_record_roundtrip sysAB h).1⟩

/-- C8 counterexample: reconstructing a system from the full output of the
snapshot writer fails — the reader hits the `"Collisions: ..."` trailer
line, whose first field is not the header token and whose second field is
not a number, so no body list at all is produced (in Python, `float()`
raises `ValueError`), let alone one of the same length. -/
theorem c8_roundtrip_counterexample :
    ¬ ∃ bodies, read_from_file (write_to_file sysAB) = some bodies ∧
        bodies.length = sysAB.system.length := by
  have hnone : read_from_file (write_to_file sysAB) = none := by
    simp [write_to_file, sysAB, read_from_file, recordOf, bodyA, bodyB]
  rintro ⟨bodies, hb, -⟩
  rw [hnone] at hb
  exact Option.noConfusion hb

lemma posOf_x {a b : Body} (h : posOf a = posOf b) : a.x = b.x :=
  congrArg Prod.fst h

lemma posOf_y {a b : Body} (h : posOf a = posOf b) : a.y = b.y :=
  congrArg (fun p => p.2.1) h

lemma posOf_z {a b : Body} (h : posOf a = posOf b) : a.z = b.z :=
  congrArg (fun p => p.2.2) h

lemma velOf_Vx {a b : Body} (h : velOf a = velOf b) : a.Vx = b.Vx :=
  congrArg Prod.fst h

lemma velOf_Vy {a b : Body} (h : velOf a = velOf b) : a.Vy = b.Vy :=
  congrArg (fun p => p.2.1) h

lemma velOf_Vz {a b : Body} (h : velOf a = velOf b) : a.Vz = b.Vz :=
  congrArg (fun p => p.2.2) h

/-- C3 (amended): when two distinct bodies coincide, the affected body's
force thread dies from the zero-distance division (`ZeroDivisionError`,
recorded in the swallowed-error list; no `DegenerateGeometry` failure is
surfaced to the caller), its velocity update never runs, yet the position
phase still runs for it — the step is not all-or-nothing: the body's
position advances by its old velocity and a trajectory sample is appended. -/
theorem c3_degenerate_step (cfg : Config) (bT : Bool) (s : Asystem)
    (i j : ℕ) (hi : i < s.system.length) (hj : j < s.system.length)
    (hij : j ≠ i)
    (hcoin : posOf (s.system.getD j default) = posOf (s.system.getD i default)) :
    i ∈ (animate cfg bT s).errs ∧
    (animate cfg bT s).sys.system.length = s.system.length ∧
    velOf ((animate cfg bT s).sys.system.getD i default) =
      velOf (s.system.getD i default) ∧
    ((animate cfg bT s).sys.system.getD i default).x =
      (s.system.getD i default).x + (s.system.getD i default).Vx * s.DELTA_T ∧
    ((animate cfg bT s).sys.system.getD i default).coord =
      (s.system.getD i default).coord ++
        [((s.system.getD i default).x + (s.system.getD i default).Vx * s.DELTA_T,
          (s.system.getD i default).y + (s.system.getD i default).Vy * s.DELTA_T,
          (s.system.getD i default).z + (s.system.getD i default).Vz * s.DELTA_T)] := by
  have herr := compute1_err cfg s.DELTA_T s.system i (s.system.getD i default)
    rfl j hj hij hcoin
  have hbody := animate_body cfg bT s i hi
  have hx := posOf_x herr.2.2
  have hy := posOf_y herr.2.2
  have hz := posOf_z herr.2.2
  have hVx := velOf_Vx herr.2.1
  have hVy := velOf_Vy herr.2.1
  have hVz := velOf_Vz herr.2.1
  have hcoord :=
    (compute1_frame cfg s.DELTA_T s.system i (s.system.getD i default)).2.1
  refine ⟨(animate_errs_mem cfg bT s i hi).mpr herr.1,
    animate_sys_length cfg bT s, ?_, ?_, ?_⟩
  · rw [hbody, compute2_vel, herr.2.1]
  · rw [hbody, compute2_x, hx, hVx]
  · rw [hbody, compute2_coord, hcoord, hx, hy, hz, hVx, hVy, hVz]

/-- Witness for the amended C3 at a concrete coincident pair. -/
theorem c3_degenerate_step_witness :
    posOf (sysCoin.system.getD 1 default) = posOf (sysCoin.system.getD 0 default) ∧
    0 ∈ (animate cfg0 true sysCoin).errs := by
  have hcoin : posOf (sysCoin.system.getD 1 default) =
      posOf (sysCoin.system.getD 0 default) := by
    simp [sysCoin, bodyC, bodyD, posOf]
  exact ⟨hcoin, (c3_degenerate_step cfg0 true sysCoin 0 1 (by simp [sysCoin])
    (by simp [sysCoin]) (by norm_num) hcoin).1⟩

/-- C3 counterexample: a concrete system with two coincident bodies.  The
step's force phase hits the zero-distance division (the swallowed-error
list is nonempty) but the caller sees no `DegenerateGeometry` failure, and
the step is not all-or-nothing: the moving body's position still changes
(its x coordinate goes from 0 to 1), so partial mutation is visible. -/
theorem c3_counterexample :
    posOf (sysCoin.system.getD 0 default) = posOf (sysCoin.system.getD 1 default) ∧
    (animate cfg0 true sysCoin).errs ≠ [] ∧
    ((animate cfg0 true sysCoin).sys.system.getD 0 default).x ≠
      (sysCoin.system.getD 0 default).x := by
  have hcoin : posOf (sysCoin.system.getD 1 default) =
      posOf (sysCoin.system.getD 0 default) := by
    simp [sysCoin, bodyC, bodyD, posOf]
  have herr := compute1_err cfg0 sysCoin.DELTA_T sysCoin.system 0
    (sysCoin.system.getD 0 default) rfl 1 (by simp [sysCoin]) (by norm_num) hcoin
  refine ⟨hcoin.symm, ?_, ?_⟩
  · exact List.ne_nil_of_mem
      ((animate_errs_mem cfg0 true sysCoin 0 (by simp [sysCoin])).mpr herr.1)
  · rw [animate_body cfg0 true sysCoin 0 (by simp [sysCoin]), compute2_x,
      posOf_x herr.2.2, velOf_Vx herr.2.1]
    norm_num [sysCoin, bodyC]

/-- C9 (amended): the closeness computation `close_calc`, where invoked on
a pair whose first body has more than two recorded samples, records an
event carrying the middle distance `d_{-1}` exactly when the last three
pairwise distances strictly decrease then strictly increase — but the step
does not invoke it (the call in `animate` is commented out), so a step's
event output never contains a closeness event. -/
theorem c9_closeness (cfg : Config) (bT : Bool) (s t : Asystem)
    (b1 b2 : Body) (hlen : 2 < b1.coord.length) :
    (animate cfg bT s).sys.closeness = [] ∧
    close_calc t b1 b2 =
      (if sampleDist b1 b2 1 > sampleDist b1 b2 2 ∧
          sampleDist b1 b2 2 < sampleDist b1 b2 3 then
        ({ t with closeness := t.closeness ++
            [(b1.ident, b2.ident, sampleDist b1 b2 2)] }, true)
      else (t, false)) := by
  refine ⟨animate_sys_closeness cfg bT s, ?_⟩
  unfold close_calc
  rw [if_pos hlen]

/-- Witness for the amended C9 at a concrete pair with three samples. -/
theorem c9_closeness_witness :
    2 < bodyH.coord.length ∧ (animate cfg0 true sysAB).sys.closeness = [] := by
  have hlen : 2 < bodyH.coord.length := by simp [bodyH]
  exact ⟨hlen, (c9_closeness cfg0 true sysAB sysAB bodyH bodyG hlen).1⟩

lemma sqrt_four : Real.sqrt 4 = 2 := by
  rw [show (4 : ℝ) = 2 ^ 2 by norm_num]
  exact Real.sqrt_sq (by norm_num)

/-- C9 counterexample: a concrete step after which both bodies have three
recorded samples whose last three distances (2, 1, 2) strictly decrease
then strictly increase — the claimed closeness event should exist, yet the
step's event output is empty. -/
theorem c9_counterexample :
    2 < ((animate cfg0 true sysC9).sys.system.getD 0 default).coord.length ∧
    2 < ((animate cfg0 true sysC9).sys.system.getD 1 default).coord.length ∧
    sampleDist ((animate cfg0 true sysC9).sys.system.getD 0 default)
        ((animate cfg0 true sysC9).sys.system.getD 1 default) 3 >
      sampleDist ((animate cfg0 true sysC9).sys.system.getD 0 default)
        ((animate cfg0 true sysC9).sys.system.getD 1 default) 2 ∧
    sampleDist ((animate cfg0 true sysC9).sys.system.getD 0 default)
        ((animate cfg0 true sysC9).sys.system.getD 1 default) 2 <
      sampleDist ((animate cfg0 true sysC9).sys.system.getD 0 default)
        ((animate cfg0 true sysC9).sys.system.getD 1 default) 1 ∧
    (animate cfg0 true sysC9).sys.closeness = [] := by
  have hgd0 : sysC9.system.getD 0 default = bodyF := rfl
  have hgd1 : sysC9.system.getD 1 default = bodyG := rfl
  have hdt : sysC9.DELTA_T = 0 := rfl
  have hd0 : ∀ j, j < sysC9.system.length → j ≠ 0 →
      posOf (sysC9.system.getD j default) ≠ posOf (sysC9.system.getD 0 default) := by
    intro j hj hj0
    have hj2 : j < 2 := by simpa [sysC9] using hj
    interval_cases j
    · exact absurd rfl hj0
    · rw [hgd1, hgd0]
      norm_num [bodyF, bodyG, posOf, Prod.ext_iff]
  have hd1 : ∀ j, j < sysC9.system.length → j ≠ 1 →
      posOf (sysC9.system.getD j default) ≠ posOf (sysC9.system.getD 1 default) := by
    intro j hj hj1
    have hj2 : j < 2 := by simpa [sysC9] using hj
    interval_cases j
    · rw [hgd1, hgd0]
      norm_num [bodyF, bodyG, posOf, Prod.ext_iff]
    · exact absurd rfl hj1
  have c0 := compute1_ok cfg0 sysC9.DELTA_T sysC9.system 0
    (sysC9.system.getD 0 default) rfl hd0
  have c1 := compute1_ok cfg0 sysC9.DELTA_T sysC9.system 1
    (sysC9.system.getD 1 default) rfl hd1
  have e0 := animate_body cfg0 true sysC9 0 (by simp [sysC9])
  have e1 := animate_body cfg0 true sysC9 1 (by simp [sysC9])
  rw [c0] at e0
  rw [c1] at e1
  have sE0 : sameExceptF
      (forceLoop cfg0 0 (sysC9.system.getD 0 default).zeroF sysC9.system.enum).1
      bodyF := by
    rw [← hgd0]
    exact sameExceptF_trans
      (forceLoop_sameExceptF cfg0 0 sysC9.system.enum
        (sysC9.system.getD 0 default).zeroF)
      (zeroF_sameExceptF (sysC9.system.getD 0 default))
  have sE1 : sameExceptF
      (forceLoop cfg0 1 (sysC9.system.getD 1 default).zeroF sysC9.system.enum).1
      bodyG := by
    rw [← hgd1]
    exact sameExceptF_trans
      (forceLoop_sameExceptF cfg0 1 sysC9.system.enum
        (sysC9.system.getD 1 default).zeroF)
      (zeroF_sameExceptF (sysC9.system.getD 1 default))
  have hcoord0 : ((animate cfg0 true sysC9).sys.system.getD 0 default).coord =
      [((0 : ℝ), (0 : ℝ), (0 : ℝ)), (0, 0, 0), (0, 0, 0)] := by
    rw [e0]
    dsimp only
    rw [compute2_coord, hdt]
    simp only [mul_zero, add_zero, cal_velocity_coord, cal_velocity_x,
      cal_velocity_y, cal_velocity_z]
    rw [sameExceptF_coord sE0, sameExceptF_x sE0, sameExceptF_y sE0,
      sameExceptF_z sE0]
    rfl
  have hcoord1 : ((animate cfg0 true sysC9).sys.system.getD 1 default).coord =
      [((2 : ℝ), (0 : ℝ), (0 : ℝ)), (1, 0, 0), (2, 0, 0)] := by
    rw [e1]
    dsimp only
    rw [compute2_coord, hdt]
    simp only [mul_zero, add_zero, cal_velocity_coord, cal_velocity_x,
      cal_velocity_y, cal_velocity_z]
    rw [sameExceptF_coord sE1, sameExceptF_x sE1, sameExceptF_y sE1,
      sameExceptF_z sE1]
    rfl
  have hs1 : sampleDist ((animate cfg0 true sysC9).sys.system.getD 0 default)
      ((animate cfg0 true sysC9).sys.system.getD 1 default) 1 = 2 := by
    unfold sampleDist coordAt
    rw [hcoord0, hcoord1]
    norm_num [sqrt_four]
  have hs2 : sampleDist ((animate cfg0 true sysC9).sys.system.getD 0 default)
      ((animate cfg0 true sysC9).sys.system.getD 1 default) 2 = 1 := by
    unfold sampleDist coordAt
    rw [hcoord0, hcoord1]
    norm_num
  have hs3 : sampleDist ((animate cfg0 true sysC9).sys.system.getD 0 default)
      ((animate cfg0 true sysC9).sys.system.getD 1 default) 3 = 2 := by
    unfold sampleDist coordAt
    rw [hcoord0, hcoord1]
    norm_num [sqrt_four]
  refine ⟨by rw [hcoord0]; norm_num, by rw [hcoord1]; norm_num, ?_, ?_,
    animate_sys_closeness cfg0 true sysC9⟩
  · rw [hs3, hs2]; norm_num
  · rw [hs2, hs1]; norm_num

lemma list_map_sum_range {M : Type} [AddCommMonoid M] (f : Body → M) :
    ∀ l : List Body,
      (l.map f).sum = ∑ j in Finset.range l.length, f (l.getD j default) := by
  intro l
  induction l with
  | nil => simp
  | cons b t ih =>
    rw [List.map_cons, List.sum_cons, ih, List.length_cons,
      Finset.sum_range_succ']
    simp [add_comm]

lemma list_map_enumFrom_sum {M : Type} [AddCommMonoid M] (f : ℕ → Body → M) :
    ∀ (l : List Body) (k : ℕ),
      ((l.enumFrom k).map fun p => f p.1 p.2).sum =
        ∑ j in Finset.range l.length, f (k + j) (l.getD j default) := by
  intro l
  induction l with
  | nil => intro k; simp
  | cons b t ih =>
    intro k
    rw [List.enumFrom_cons, List.map_cons, List.sum_cons, ih,
      List.length_cons, Finset.sum_range_succ']
    have hre : ∀ j, f (k + 1 + j) (t.getD j default) =
        f (k + (j + 1)) ((b :: t).getD (j + 1) default) := by
      intro j
      have h1 : k + 1 + j = k + (j + 1) := by omega
      rw [h1, List.getD_cons_succ]
    rw [Finset.sum_congr rfl fun j _ => hre j]
    simp [add_comm]

lemma list_map_enum_sum {M : Type} [AddCommMonoid M] (f : ℕ → Body → M)
    (l : List Body) :
    ((l.enum.map fun p => f p.1 p.2).sum) =
      ∑ j in Finset.range l.length, f j (l.getD j default) := by
  have h := list_map_enumFrom_sum f l 0
  have he : l.enum = l.enumFrom 0 := rfl
  rw [he]
  simpa using h

lemma double_sum_antisymm (n : ℕ) (f : ℕ → ℕ → ℝ)
    (h : ∀ i j, f i j = - f j i) :
    ∑ i in Finset.range n, ∑ j in Finset.range n, f i j = 0 := by
  have h1 : ∑ i in Finset.range n, ∑ j in Finset.range n, f i j =
      ∑ i in Finset.range n, ∑ j in Finset.range n, -(f j i) := by
    refine Finset.sum_congr rfl fun i _ => Finset.sum_congr rfl fun j _ => h i j
  have h2 : ∑ i in Finset.range n, ∑ j in Finset.range n, -(f j i) =
      -(∑ i in Finset.range n, ∑ j in Finset.range n, f j i) := by
    simp
  have h3 : ∑ i in Finset.range n, ∑ j in Finset.range n, f j i =
      ∑ j in Finset.range n, ∑ i in Finset.range n, f j i := Finset.sum_comm
  have := h1.trans (h2.trans (congrArg Neg.neg h3))
  linarith

lemma contrib_antisymm (cfg : Config) (a b : Body) :
    contrib cfg a b = - contrib cfg b a := by
  simp only [contrib]
  have hd : Real.sqrt ((a.x - b.x) ^ 2 + (a.y - b.y) ^ 2 + (a.z - b.z) ^ 2) =
      Real.sqrt ((b.x - a.x) ^ 2 + (b.y - a.y) ^ 2 + (b.z - a.z) ^ 2) := by
    rw [show (a.x - b.x) ^ 2 + (a.y - b.y) ^ 2 + (a.z - b.z) ^ 2 =
      (b.x - a.x) ^ 2 + (b.y - a.y) ^ 2 + (b.z - a.z) ^ 2 by ring]
  rw [hd]
  refine Prod.ext ?_ (Prod.ext ?_ ?_) <;>
    simp only [Prod.fst_neg, Prod.snd_neg] <;> ring

lemma contrib_pos_congr (cfg : Config) {a b o q : Body}
    (h1 : posOf a = posOf b) (h2 : a.mass = b.mass)
    (h3 : posOf o = posOf q) (h4 : o.mass = q.mass) :
    contrib cfg a o = contrib cfg b q := by
  unfold contrib
  rw [posOf_x h1, posOf_y h1, posOf_z h1, h2, posOf_x h3, posOf_y h3,
    posOf_z h3, h4]

lemma getD_mem {l : List Body} {j : ℕ} (hj : j < l.length) :
    l.getD j default ∈ l := by
  rw [List.getD_eq_getElem l default hj]
  exact List.getElem_mem hj

lemma momentum_proj_conserved (cfg : Config) (bT : Bool) (s : Asystem)
    (hm : ∀ b ∈ s.system, b.mass ≠ 0)
    (hd : distinctPositions s.system)
    (V F : Body → ℝ) (C : Body → Body → ℝ)
    (hV1 : ∀ (dt : ℝ) (b : Body), V (b.cal_velocity dt) = V b + F b * dt / b.mass)
    (hV2 : ∀ (dt : ℝ) (b : Body), V (compute2 cfg dt b) = V b)
    (hVE : ∀ a b : Body, sameExceptF a b → V a = V b)
    (hF : ∀ i, i < s.system.length →
      F (forceLoop cfg i (s.system.getD i default).zeroF s.system.enum).1 =
        (s.system.enum.map fun p => if p.1 = i then 0
          else C (s.system.getD i default) p.2).sum)
    (hC : ∀ a b : Body, C a b = - C b a) :
    ((animate cfg bT s).sys.system.map fun b => b.mass * V b).sum =
      (s.system.map fun b => b.mass * V b).sum := by
  rw [list_map_sum_range, list_map_sum_range, animate_sys_length]
  have hterm : ∀ j ∈ Finset.range s.system.length,
      ((animate cfg bT s).sys.system.getD j default).mass *
        V ((animate cfg bT s).sys.system.getD j default) =
      (s.system.getD j default).mass * V (s.system.getD j default) +
        F (forceLoop cfg j (s.system.getD j default).zeroF s.system.enum).1 *
          s.DELTA_T := by
    intro j hj
    rw [Finset.mem_range] at hj
    have hdj : ∀ k, k < s.system.length → k ≠ j →
        posOf (s.system.getD k default) ≠ posOf (s.system.getD j default) :=
      fun k hk hkj => hd k j hk hj hkj
    have hb := animate_body cfg bT s j hj
    have hc1 := compute1_ok cfg s.DELTA_T s.system j (s.system.getD j default)
      rfl hdj
    rw [hc1] at hb
    have hE : sameExceptF
        (forceLoop cfg j (s.system.getD j default).zeroF s.system.enum).1
        (s.system.getD j default) :=
      sameExceptF_trans
        (forceLoop_sameExceptF cfg j s.system.enum
          (s.system.getD j default).zeroF)
        (zeroF_sameExceptF (s.system.getD j default))
    rw [hb]
    dsimp only
    rw [compute2_mass, cal_velocity_mass, hV2, hV1, sameExceptF_mass hE,
      hVE _ _ hE]
    have hmass : (s.system.getD j default).mass ≠ 0 :=
      hm (s.system.getD j default) (getD_mem hj)
    rw [mul_add]
    congr 1
    rw [mul_comm, div_mul_cancel₀ _ hmass]
  rw [Finset.sum_congr rfl hterm, Finset.sum_add_distrib]
  have hzero : ∑ j in Finset.range s.system.length,
      F (forceLoop cfg j (s.system.getD j default).zeroF s.system.enum).1 *
        s.DELTA_T = 0 := by
    rw [← Finset.sum_mul]
    have hsum : ∑ j in Finset.range s.system.length,
        F (forceLoop cfg j (s.system.getD j default).zeroF s.system.enum).1 =
        ∑ j in Finset.range s.system.length, ∑ k in Finset.range s.system.length,
          (if k = j then 0 else C (s.system.getD j default)
            (s.system.getD k default)) := by
      refine Finset.sum_congr rfl fun j hj => ?_
      rw [Finset.mem_range] at hj
      rw [hF j hj, list_map_enum_sum (fun k b => if k = j then 0
        else C (s.system.getD j default) b) s.system]
    rw [hsum, double_sum_antisymm, zero_mul]
    intro i j
    by_cases hij : j = i
    · subst hij
      simp
    · have hji : ¬ i = j := fun h => hij h.symm
      rw [if_neg hij, if_neg hji, hC]
  rw [hzero, add_zero]

lemma list_sum_fst : ∀ l : List (ℝ × ℝ × ℝ), l.sum.1 = (l.map Prod.fst).sum := by
  intro l
  induction l with
  | nil => simp
  | cons a t ih => simp [ih]

lemma list_sum_snd_fst : ∀ l : List (ℝ × ℝ × ℝ),
    l.sum.2.1 = (l.map fun v => v.2.1).sum := by
  intro l
  induction l with
  | nil => simp
  | cons a t ih => simp [ih]

lemma list_sum_snd_snd : ∀ l : List (ℝ × ℝ × ℝ),
    l.sum.2.2 = (l.map fun v => v.2.2).sum := by
  intro l
  induction l with
  | nil => simp
  | cons a t ih => simp [ih]

lemma momentum_fst (s : Asystem) :
    (momentum s).1 = (s.system.map fun b => b.mass * b.Vx).sum := by
  unfold momentum
  rw [list_sum_fst, List.map_map]
  rfl

lemma momentum_snd_fst (s : Asystem) :
    (momentum s).2.1 = (s.system.map fun b => b.mass * b.Vy).sum := by
  unfold momentum
  rw [list_sum_snd_fst, List.map_map]
  rfl

lemma momentum_snd_snd (s : Asystem) :
    (momentum s).2.2 = (s.system.map fun b => b.mass * b.Vz).sum := by
  unfold momentum
  rw [list_sum_snd_snd, List.map_map]
  rfl

lemma animate_momentum (cfg : Config) (bT : Bool) (s : Asystem)
    (hm : ∀ b ∈ s.system, b.mass ≠ 0)
    (hd : distinctPositions s.system) :
    momentum (animate cfg bT s).sys = momentum s := by
  have h1 := momentum_proj_conserved cfg bT s hm hd Body.Vx Body.Fx
    (fun a b => (contrib cfg a b).1) cal_velocity_Vx (compute2_Vx cfg)
    (fun a b h => sameExceptF_Vx h)
    (fun i hi => (forceLoop_sum_contrib cfg s.system i
      (fun j hj hji => hd j i hj hi hji)).1)
    (fun a b => by
      show (contrib cfg a b).1 = -(contrib cfg b a).1
      rw [contrib_antisymm cfg a b, Prod.fst_neg])
  have h2 := momentum_proj_conserved cfg bT s hm hd Body.Vy Body.Fy
    (fun a b => (contrib cfg a b).2.1) cal_velocity_Vy (compute2_Vy cfg)
    (fun a b h => sameExceptF_Vy h)
    (fun i hi => (forceLoop_sum_contrib cfg s.system i
      (fun j hj hji => hd j i hj hi hji)).2.1)
    (fun a b => by
      show (contrib cfg a b).2.1 = -(contrib cfg b a).2.1
      rw [contrib_antisymm cfg a b, Prod.snd_neg, Prod.fst_neg])
  have h3 := momentum_proj_conserved cfg bT s hm hd Body.Vz Body.Fz
    (fun a b => (contrib cfg a b).2.2) cal_velocity_Vz (compute2_Vz cfg)
    (fun a b h => sameExceptF_Vz h)
    (fun i hi => (forceLoop_sum_contrib cfg s.system i
      (fun j hj hji => hd j i hj hi hji)).2.2)
    (fun a b => by
      show (contrib cfg a b).2.2 = -(contrib cfg b a).2.2
      rw [contrib_antisymm cfg a b, Prod.snd_neg, Prod.snd_neg])
  refine Prod.ext ?_ (Prod.ext ?_ ?_)
  · rw [momentum_fst, momentum_fst]
    exact h1
  · rw [momentum_snd_fst, momentum_snd_fst]
    exact h2
  · rw [momentum_snd_snd, momentum_snd_snd]
    exact h3

lemma animate_mass_step (cfg : Config) (bT : Bool) (s : Asystem) :
    ∀ b ∈ (animate cfg bT s).sys.system, ∃ b0 ∈ s.system, b.mass = b0.mass := by
  intro b hb
  rw [animate_sys_system, List.mem_map] at hb
  obtain ⟨c, hc, rfl⟩ := hb
  rw [List.mem_map] at hc
  obtain ⟨q, hq, rfl⟩ := hc
  unfold phase1 at hq
  rw [List.mem_map] at hq
  obtain ⟨p, hp, rfl⟩ := hq
  refine ⟨p.2, mem_of_mem_enum hp, ?_⟩
  rw [compute2_mass,
    (compute1_frame cfg s.DELTA_T s.system p.1 p.2).2.2.2.1]

lemma animateN_mass (cfg : Config) (bT : Bool) (s0 : Asystem)
    (hm : ∀ b ∈ s0.system, b.mass ≠ 0) :
    ∀ n, ∀ b ∈ (animateN cfg bT n s0).system, b.mass ≠ 0 := by
  intro n
  induction n with
  | zero => exact hm
  | succ n ih =>
    intro b hb
    rw [animateN] at hb
    obtain ⟨b0, hb0, heq⟩ :=
      animate_mass_step cfg bT (animateN cfg bT n s0) b hb
    rw [heq]
    exact ih b0 hb0

/-- C7 (amended): for a system of bodies with positive masses, under exact
real arithmetic the total momentum `Σ mass_i · V_i` is unchanged by any
number of simulation steps, provided the body positions remain pairwise
distinct at every intermediate state.  (When two bodies come to coincide
mid-run, their velocity updates die with the zero-distance division while
other bodies still accelerate, and momentum is no longer conserved: see the
counterexample.) -/
theorem c7_momentum_conservation (cfg : Config) (bT : Bool) (s0 : Asystem)
    (hm : ∀ b ∈ s0.system, 0 < b.mass) (n : ℕ)
    (hd : ∀ k, k < n → distinctPositions (animateN cfg bT k s0).system) :
    momentum (animateN cfg bT n s0) = momentum s0 := by
  induction n with
  | zero => rfl
  | succ n ih =>
    have hmn : ∀ b ∈ (animateN cfg bT n s0).system, b.mass ≠ 0 :=
      animateN_mass cfg bT s0 (fun b hb => ne_of_gt (hm b hb)) n
    rw [animateN, animate_momentum cfg bT _ hmn (hd n (Nat.lt_succ_self n))]
    exact ih fun k hk => hd k (Nat.lt_succ_of_lt hk)

/-- Witness for the amended C7: one step of the concrete two-body system. -/
theorem c7_momentum_conservation_witness :
    (∀ b ∈ sysAB.system, 0 < b.mass) ∧
    momentum (animateN cfg0 true 1 sysAB) = momentum sysAB := by
  have hm : ∀ b ∈ sysAB.system, 0 < b.mass := by
    intro b hb
    simp only [sysAB, List.mem_cons, List.not_mem_nil, or_false] at hb
    rcases hb with rfl | rfl
    · norm_num [bodyA]
    · norm_num [bodyB]
  have hd : ∀ k, k < 1 → distinctPositions (animateN cfg0 true k sysAB).system := by
    intro k hk
    interval_cases k
    intro i j hi hj hij
    have hi2 : i < 2 := by simpa [animateN, sysAB] using hi
    have hj2 : j < 2 := by simpa [animateN, sysAB] using hj
    show posOf ((animateN cfg0 true 0 sysAB).system.getD i default) ≠
      posOf ((animateN cfg0 true 0 sysAB).system.getD j default)
    rw [show animateN cfg0 true 0 sysAB = sysAB from rfl]
    interval_cases i <;> interval_cases j <;>
      first
        | exact absurd rfl hij
        | norm_num [sysAB, bodyA, bodyB, posOf, Prod.ext_iff]
  exact ⟨hm, c7_momentum_conservation cfg0 true sysAB hm 1 hd⟩

lemma sqrt_of_sq (x y : ℝ) (hy : 0 ≤ y) (h : y ^ 2 = x) : Real.sqrt x = y := by
  rw [← h]
  exact Real.sqrt_sq hy

lemma sqrt_25 : Real.sqrt 25 = 5 := sqrt_of_sq _ _ (by norm_num) (by norm_num)

lemma contrib_stub31 : contrib cfg0 stub3 stub1 = (-(3 / 125), -(4 / 125), 0) := by
  simp only [contrib]
  norm_num [stub1, stub3, cfg0, sqrt_25, Prod.ext_iff]

lemma contrib_stub32 : contrib cfg0 stub3 stub2 = (3 / 125, -(4 / 125), 0) := by
  simp only [contrib]
  norm_num [stub2, stub3, cfg0, sqrt_25, Prod.ext_iff]

lemma sqrt_242064 : Real.sqrt 242064 = 492 :=
  sqrt_of_sq _ _ (by norm_num) (by norm_num)

lemma sqrt_15625 : Real.sqrt 15625 = 125 :=
  sqrt_of_sq _ _ (by norm_num) (by norm_num)

lemma contrib_stubQO : (contrib cfg0 stub3b stubO).2.1 = -(15625 / 242064) := by
  simp only [contrib]
  norm_num [stubO, stub3b, cfg0, sqrt_242064, sqrt_15625]

lemma animate_mass_getD (cfg : Config) (bT : Bool) (s : Asystem) (i : ℕ)
    (hi : i < s.system.length) :
    ((animate cfg bT s).sys.system.getD i default).mass =
      (s.system.getD i default).mass := by
  rw [animate_body cfg bT s i hi, compute2_mass,
    (compute1_frame cfg s.DELTA_T s.system i (s.system.getD i default)).2.2.2.1]

lemma sysP_len : sysP.system.length = 3 := rfl

lemma sysP_distinct : distinctPositions sysP.system := by
  intro i j hi hj hij
  have hi3 : i < 3 := by rw [sysP_len] at hi; exact hi
  have hj3 : j < 3 := by rw [sysP_len] at hj; exact hj
  interval_cases i <;> interval_cases j <;>
    first
      | exact absurd rfl hij
      | norm_num [sysP, body1P, body2P, stub1, stub2, stub3, posOf, Prod.ext_iff]

lemma sysP_hd (i : ℕ) (hi : i < 3) :
    ∀ j, j < sysP.system.length → j ≠ i →
      posOf (sysP.system.getD j default) ≠ posOf (sysP.system.getD i default) :=
  fun j hj hji => sysP_distinct j i hj (by rw [sysP_len]; exact hi) hji

lemma sysP_enum : sysP.system.enum = [(0, body1P), (1, body2P), (2, stub3)] := rfl

lemma sysP_F0 :
    (forceLoop cfg0 0 (sysP.system.getD 0 default).zeroF sysP.system.enum).1.Fx =
      (contrib cfg0 stub1 stub2).1 + (contrib cfg0 stub1 stub3).1 ∧
    (forceLoop cfg0 0 (sysP.system.getD 0 default).zeroF sysP.system.enum).1.Fy =
      (contrib cfg0 stub1 stub2).2.1 + (contrib cfg0 stub1 stub3).2.1 ∧
    (forceLoop cfg0 0 (sysP.system.getD 0 default).zeroF sysP.system.enum).1.Fz =
      (contrib cfg0 stub1 stub2).2.2 + (contrib cfg0 stub1 stub3).2.2 := by
  obtain ⟨h1, h2, h3⟩ :=
    forceLoop_sum_contrib cfg0 sysP.system 0 (sysP_hd 0 (by norm_num))
  have hg0 : sysP.system.getD 0 default = body1P := rfl
  have hc12 : contrib cfg0 body1P body2P = contrib cfg0 stub1 stub2 :=
    contrib_pos_congr cfg0 rfl rfl rfl rfl
  have hc13 : contrib cfg0 body1P stub3 = contrib cfg0 stub1 stub3 :=
    contrib_pos_congr cfg0 rfl rfl rfl rfl
  refine ⟨?_, ?_, ?_⟩
  · rw [h1, sysP_enum, hg0]
    simp [hc12, hc13]
  · rw [h2, sysP_enum, hg0]
    simp [hc12, hc13]
  · rw [h3, sysP_enum, hg0]
    simp [hc12, hc13]

lemma sysP_F1 :
    (forceLoop cfg0 1 (sysP.system.getD 1 default).zeroF sysP.system.enum).1.Fx =
      (contrib cfg0 stub2 stub1).1 + (contrib cfg0 stub2 stub3).1 ∧
    (forceLoop cfg0 1 (sysP.system.getD 1 default).zeroF sysP.system.enum).1.Fy =
      (contrib cfg0 stub2 stub1).2.1 + (contrib cfg0 stub2 stub3).2.1 ∧
    (forceLoop cfg0 1 (sysP.system.getD 1 default).zeroF sysP.system.enum).1.Fz =
      (contrib cfg0 stub2 stub1).2.2 + (contrib cfg0 stub2 stub3).2.2 := by
  obtain ⟨h1, h2, h3⟩ :=
    forceLoop_sum_contrib cfg0 sysP.system 1 (sysP_hd 1 (by norm_num))
  have hg1 : sysP.system.getD 1 default = body2P := rfl
  have hc21 : contrib cfg0 body2P body1P = contrib cfg0 stub2 stub1 :=
    contrib_pos_congr cfg0 rfl rfl rfl rfl
  have hc23 : contrib cfg0 body2P stub3 = contrib cfg0 stub2 stub3 :=
    contrib_pos_congr cfg0 rfl rfl rfl rfl
  refine ⟨?_, ?_, ?_⟩
  · rw [h1, sysP_enum, hg1]
    simp [hc21, hc23]
  · rw [h2, sysP_enum, hg1]
    simp [hc21, hc23]
  · rw [h3, sysP_enum, hg1]
    simp [hc21, hc23]

lemma sysP_F2 :
    (forceLoop cfg0 2 (sysP.system.getD 2 default).zeroF sysP.system.enum).1.Fx = 0 ∧
    (forceLoop cfg0 2 (sysP.system.getD 2 default).zeroF sysP.system.enum).1.Fy =
      -(8 / 125) ∧
    (forceLoop cfg0 2 (sysP.system.getD 2 default).zeroF sysP.system.enum).1.Fz = 0 := by
  obtain ⟨h1, h2, h3⟩ :=
    forceLoop_sum_contrib cfg0 sysP.system 2 (sysP_hd 2 (by norm_num))
  have hg2 : sysP.system.getD 2 default = stub3 := rfl
  have hc31 : contrib cfg0 stub3 body1P = contrib cfg0 stub3 stub1 :=
    contrib_pos_congr cfg0 rfl rfl rfl rfl
  have hc32 : contrib cfg0 stub3 body2P = contrib cfg0 stub3 stub2 :=
    contrib_pos_congr cfg0 rfl rfl rfl rfl
  refine ⟨?_, ?_, ?_⟩
  · rw [h1, sysP_enum, hg2]
    simp [hc31, hc32, contrib_stub31, contrib_stub32]
  · rw [h2, sysP_enum, hg2]
    simp [hc31, hc32, contrib_stub31, contrib_stub32]
    norm_num
  · rw [h3, sysP_enum, hg2]
    simp [hc31, hc32, contrib_stub31, contrib_stub32]

lemma sysP_step1_pos0 :
    posOf ((animate cfg0 true sysP).sys.system.getD 0 default) = (0, 0, 0) := by
  have e0 := animate_body cfg0 true sysP 0 (by rw [sysP_len]; norm_num)
  rw [compute1_ok cfg0 sysP.DELTA_T sysP.system 0 (sysP.system.getD 0 default)
    rfl (sysP_hd 0 (by norm_num))] at e0
  have sE0 : sameExceptF
      (forceLoop cfg0 0 (sysP.system.getD 0 default).zeroF sysP.system.enum).1
      (sysP.system.getD 0 default) :=
    sameExceptF_trans
      (forceLoop_sameExceptF cfg0 0 sysP.system.enum
        (sysP.system.getD 0 default).zeroF)
      (zeroF_sameExceptF (sysP.system.getD 0 default))
  obtain ⟨hFx, hFy, hFz⟩ := sysP_F0
  unfold posOf
  rw [e0]
  dsimp only
  rw [compute2_x, compute2_y, compute2_z, cal_velocity_x, cal_velocity_y,
    cal_velocity_z, cal_velocity_Vx, cal_velocity_Vy, cal_velocity_Vz,
    sameExceptF_x sE0, sameExceptF_y sE0, sameExceptF_z sE0,
    sameExceptF_Vx sE0, sameExceptF_Vy sE0, sameExceptF_Vz sE0,
    sameExceptF_mass sE0, hFx, hFy, hFz]
  rw [show sysP.system.getD 0 default = body1P from rfl,
    show sysP.DELTA_T = 1 from rfl]
  rw [show body1P.x = -3 from rfl, show body1P.y = 0 from rfl,
    show body1P.z = 0 from rfl, show body1P.mass = 1 from rfl,
    show body1P.Vx = 3 - ((contrib cfg0 stub1 stub2).1 +
      (contrib cfg0 stub1 stub3).1) from rfl,
    show body1P.Vy = -((contrib cfg0 stub1 stub2).2.1 +
      (contrib cfg0 stub1 stub3).2.1) from rfl,
    show body1P.Vz = -((contrib cfg0 stub1 stub2).2.2 +
      (contrib cfg0 stub1 stub3).2.2) from rfl]
  simp only [Prod.mk.injEq]
  refine ⟨?_, ?_, ?_⟩ <;> ring

lemma sysP_step1_pos1 :
    posOf ((animate cfg0 true sysP).sys.system.getD 1 default) = (0, 0, 0) := by
  have e1 := animate_body cfg0 true sysP 1 (by rw [sysP_len]; norm_num)
  rw [compute1_ok cfg0 sysP.DELTA_T sysP.system 1 (sysP.system.getD 1 default)
    rfl (sysP_hd 1 (by norm_num))] at e1
  have sE1 : sameExceptF
      (forceLoop cfg0 1 (sysP.system.getD 1 default).zeroF sysP.system.enum).1
      (sysP.system.getD 1 default) :=
    sameExceptF_trans
      (forceLoop_sameExceptF cfg0 1 sysP.system.enum
        (sysP.system.getD 1 default).zeroF)
      (zeroF_sameExceptF (sysP.system.getD 1 default))
  obtain ⟨hFx, hFy, hFz⟩ := sysP_F1
  unfold posOf
  rw [e1]
  dsimp only
  rw [compute2_x, compute2_y, compute2_z, cal_velocity_x, cal_velocity_y,
    cal_velocity_z, cal_velocity_Vx, cal_velocity_Vy, cal_velocity_Vz,
    sameExceptF_x sE1, sameExceptF_y sE1, sameExceptF_z sE1,
    sameExceptF_Vx sE1, sameExceptF_Vy sE1, sameExceptF_Vz sE1,
    sameExceptF_mass sE1, hFx, hFy, hFz]
  rw [show sysP.system.getD 1 default = body2P from rfl,
    show sysP.DELTA_T = 1 from rfl]
  rw [show body2P.x = 3 from rfl, show body2P.y = 0 from rfl,
    show body2P.z = 0 from rfl, show body2P.mass = 1 from rfl,
    show body2P.Vx = -3 - ((contrib cfg0 stub2 stub1).1 +
      (contrib cfg0 stub2 stub3).1) from rfl,
    show body2P.Vy = -((contrib cfg0 stub2 stub1).2.1 +
      (contrib cfg0 stub2 stub3).2.1) from rfl,
    show body2P.Vz = -((contrib cfg0 stub2 stub1).2.2 +
      (contrib cfg0 stub2 stub3).2.2) from rfl]
  simp only [Prod.mk.injEq]
  refine ⟨?_, ?_, ?_⟩ <;> ring

lemma sysP_step1_pos2 :
    posOf ((animate cfg0 true sysP).sys.system.getD 2 default) =
      (0, 492 / 125, 0) := by
  have e2 := animate_body cfg0 true sysP 2 (by rw [sysP_len]; norm_num)
  rw [compute1_ok cfg0 sysP.DELTA_T sysP.system 2 (sysP.system.getD 2 default)
    rfl (sysP_hd 2 (by norm_num))] at e2
  have sE2 : sameExceptF
      (forceLoop cfg0 2 (sysP.system.getD 2 default).zeroF sysP.system.enum).1
      (sysP.system.getD 2 default) :=
    sameExceptF_trans
      (forceLoop_sameExceptF cfg0 2 sysP.system.enum
        (sysP.system.getD 2 default).zeroF)
      (zeroF_sameExceptF (sysP.system.getD 2 default))
  obtain ⟨hFx, hFy, hFz⟩ := sysP_F2
  unfold posOf
  rw [e2]
  dsimp only
  rw [compute2_x, compute2_y, compute2_z, cal_velocity_x, cal_velocity_y,
    cal_velocity_z, cal_velocity_Vx, cal_velocity_Vy, cal_velocity_Vz,
    sameExceptF_x sE2, sameExceptF_y sE2, sameExceptF_z sE2,
    sameExceptF_Vx sE2, sameExceptF_Vy sE2, sameExceptF_Vz sE2,
    sameExceptF_mass sE2, hFx, hFy, hFz]
  rw [show sysP.system.getD 2 default = stub3 from rfl,
    show sysP.DELTA_T = 1 from rfl]
  rw [show stub3.x = 0 from rfl, show stub3.y = 4 from rfl,
    show stub3.z = 0 from rfl, show stub3.mass = 1 from rfl,
    show stub3.Vx = 0 from rfl, show stub3.Vy = 0 from rfl,
    show stub3.Vz = 0 from rfl]
  simp only [Prod.mk.injEq]
  norm_num

lemma sysP_step1_dt : (animate cfg0 true sysP).sys.DELTA_T = 1 := by
  rw [animate_sys_DELTA_T]
  simp [cfg0]

lemma sysP_step1_len : (animate cfg0 true sysP).sys.system.length = 3 := by
  rw [animate_sys_length, sysP_len]

lemma sysP_step1_mass (i : ℕ) (hi : i < 3) :
    ((animate cfg0 true sysP).sys.system.getD i default).mass = 1 := by
  rw [animate_mass_getD cfg0 true sysP i (by rw [sysP_len]; exact hi)]
  interval_cases i <;> rfl

/-- C7 counterexample: a three-body system with positive masses and
pairwise distinct positions whose total momentum changes after two steps.
The first two bodies are launched so that after one exact step they occupy
the same point; on the second step their velocity updates die with the
zero-distance division while the third body still receives its
gravitational kick, so the y-momentum drops by 15625/121032. -/
theorem c7_counterexample :
    (∀ b ∈ sysP.system, 0 < b.mass) ∧
    distinctPositions sysP.system ∧
    momentum (animateN cfg0 true 2 sysP) ≠ momentum sysP := by
  have hmass : ∀ b ∈ sysP.system, 0 < b.mass := by
    intro b hb
    simp only [sysP, List.mem_cons, List.not_mem_nil, or_false] at hb
    rcases hb with rfl | rfl | rfl
    · norm_num [body1P, stub1]
    · norm_num [body2P, stub2]
    · norm_num [stub3]
  refine ⟨hmass, sysP_distinct, ?_⟩
  have hmom1 : momentum (animate cfg0 true sysP).sys = momentum sysP :=
    animate_momentum cfg0 true sysP (fun b hb => ne_of_gt (hmass b hb))
      sysP_distinct
  have hlen1 := sysP_step1_len
  have hdt1 := sysP_step1_dt
  have hp0 := sysP_step1_pos0
  have hp1 := sysP_step1_pos1
  have hp2 := sysP_step1_pos2
  have hm10 := sysP_step1_mass 0 (by norm_num)
  have hm11 := sysP_step1_mass 1 (by norm_num)
  have hm12 := sysP_step1_mass 2 (by norm_num)
  -- step 2, body 0: the force thread dies at the coincident body 1
  have herr0 := compute1_err cfg0 (animate cfg0 true sysP).sys.DELTA_T
    (animate cfg0 true sysP).sys.system 0
    ((animate cfg0 true sysP).sys.system.getD 0 default) rfl 1
    (by rw [hlen1]; norm_num) (by norm_num) (hp1.trans hp0.symm)
  have herr1 := compute1_err cfg0 (animate cfg0 true sysP).sys.DELTA_T
    (animate cfg0 true sysP).sys.system 1
    ((animate cfg0 true sysP).sys.system.getD 1 default) rfl 0
    (by rw [hlen1]; norm_num) (by norm_num) (hp0.trans hp1.symm)
  have eb0 := animate_body cfg0 true (animate cfg0 true sysP).sys 0
    (by rw [hlen1]; norm_num)
  have eb1 := animate_body cfg0 true (animate cfg0 true sysP).sys 1
    (by rw [hlen1]; norm_num)
  have hV0 : velOf ((animate cfg0 true (animate cfg0 true sysP).sys).sys.system.getD
      0 default) =
      velOf ((animate cfg0 true sysP).sys.system.getD 0 default) := by
    rw [eb0, compute2_vel, herr0.2.1]
  have hV1 : velOf ((animate cfg0 true (animate cfg0 true sysP).sys).sys.system.getD
      1 default) =
      velOf ((animate cfg0 true sysP).sys.system.getD 1 default) := by
    rw [eb1, compute2_vel, herr1.2.1]
  -- step 2, body 2: normal update with the kick from the coincident pair
  have hd2 : ∀ j, j < (animate cfg0 true sysP).sys.system.length → j ≠ 2 →
      posOf ((animate cfg0 true sysP).sys.system.getD j default) ≠
        posOf ((animate cfg0 true sysP).sys.system.getD 2 default) := by
    intro j hj hj2
    have hj3 : j < 3 := by rw [hlen1] at hj; exact hj
    interval_cases j
    · rw [hp0, hp2]
      norm_num [Prod.ext_iff]
    · rw [hp1, hp2]
      norm_num [Prod.ext_iff]
    · exact absurd rfl hj2
  have c2 := compute1_ok cfg0 (animate cfg0 true sysP).sys.DELTA_T
    (animate cfg0 true sysP).sys.system 2
    ((animate cfg0 true sysP).sys.system.getD 2 default) rfl hd2
  have eb2 := animate_body cfg0 true (animate cfg0 true sysP).sys 2
    (by rw [hlen1]; norm_num)
  rw [c2] at eb2
  have sE2b : sameExceptF
      (forceLoop cfg0 2
        ((animate cfg0 true sysP).sys.system.getD 2 default).zeroF
        (animate cfg0 true sysP).sys.system.enum).1
      ((animate cfg0 true sysP).sys.system.getD 2 default) :=
    sameExceptF_trans
      (forceLoop_sameExceptF cfg0 2 (animate cfg0 true sysP).sys.system.enum
        ((animate cfg0 true sysP).sys.system.getD 2 default).zeroF)
      (zeroF_sameExceptF ((animate cfg0 true sysP).sys.system.getD 2 default))
  have hcA : contrib cfg0 ((animate cfg0 true sysP).sys.system.getD 2 default)
      ((animate cfg0 true sysP).sys.system.getD 0 default) =
      contrib cfg0 stub3b stubO :=
    contrib_pos_congr cfg0 hp2 hm12 hp0 hm10
  have hcB : contrib cfg0 ((animate cfg0 true sysP).sys.system.getD 2 default)
      ((animate cfg0 true sysP).sys.system.getD 1 default) =
      contrib cfg0 stub3b stubO :=
    contrib_pos_congr cfg0 hp2 hm12 hp1 hm11
  have hsum := (forceLoop_sum_contrib cfg0 (animate cfg0 true sysP).sys.system 2
    hd2).2.1
  rw [list_map_enum_sum (fun k b => if k = 2 then 0
    else (contrib cfg0 ((animate cfg0 true sysP).sys.system.getD 2 default) b).2.1)
    (animate cfg0 true sysP).sys.system, hlen1, Finset.sum_range_succ,
    Finset.sum_range_succ, Finset.sum_range_succ, Finset.sum_range_zero,
    hcA, hcB, contrib_stubQO, if_neg (by norm_num : ¬ (0 : ℕ) = 2),
    if_neg (by norm_num : ¬ (1 : ℕ) = 2), if_pos rfl] at hsum
  have hV2 : ((animate cfg0 true (animate cfg0 true sysP).sys).sys.system.getD
      2 default).Vy =
      ((animate cfg0 true sysP).sys.system.getD 2 default).Vy -
        15625 / 121032 := by
    rw [eb2]
    dsimp only
    rw [compute2_Vy, cal_velocity_Vy, sameExceptF_Vy sE2b,
      sameExceptF_mass sE2b, hm12, hsum, hdt1]
    ring
  -- momentum decompositions at states 1 and 2
  have hlen2 : (animate cfg0 true (animate cfg0 true sysP).sys).sys.system.length =
      3 := by
    rw [animate_sys_length, hlen1]
  have hm20 : ((animate cfg0 true (animate cfg0 true sysP).sys).sys.system.getD
      0 default).mass = 1 := by
    rw [animate_mass_getD cfg0 true (animate cfg0 true sysP).sys 0
      (by rw [hlen1]; norm_num), hm10]
  have hm21 : ((animate cfg0 true (animate cfg0 true sysP).sys).sys.system.getD
      1 default).mass = 1 := by
    rw [animate_mass_getD cfg0 true (animate cfg0 true sysP).sys 1
      (by rw [hlen1]; norm_num), hm11]
  have hm22 : ((animate cfg0 true (animate cfg0 true sysP).sys).sys.system.getD
      2 default).mass = 1 := by
    rw [animate_mass_getD cfg0 true (animate cfg0 true sysP).sys 2
      (by rw [hlen1]; norm_num), hm12]
  have hdec1 : (momentum (animate cfg0 true sysP).sys).2.1 =
      ((animate cfg0 true sysP).sys.system.getD 0 default).Vy +
      ((animate cfg0 true sysP).sys.system.getD 1 default).Vy +
      ((animate cfg0 true sysP).sys.system.getD 2 default).Vy := by
    rw [momentum_snd_fst, list_map_sum_range, hlen1, Finset.sum_range_succ,
      Finset.sum_range_succ, Finset.sum_range_succ, Finset.sum_range_zero,
      hm10, hm11, hm12]
    ring
  have hdec2 : (momentum (animate cfg0 true (animate cfg0 true sysP).sys).sys).2.1 =
      ((animate cfg0 true sysP).sys.system.getD 0 default).Vy +
      ((animate cfg0 true sysP).sys.system.getD 1 default).Vy +
      ((animate cfg0 true sysP).sys.system.getD 2 default).Vy -
        15625 / 121032 := by
    rw [momentum_snd_fst, list_map_sum_range, hlen2, Finset.sum_range_succ,
      Finset.sum_range_succ, Finset.sum_range_succ, Finset.sum_range_zero,
      hm20, hm21, hm22, velOf_Vy hV0, velOf_Vy hV1, hV2]
    ring
  have hstep1y : (momentum (animate cfg0 true sysP).sys).2.1 =
      (momentum sysP).2.1 := congrArg (fun v => v.2.1) hmom1
  intro hcontra
  have h2y : (momentum (animate cfg0 true (animate cfg0 true sysP).sys).sys).2.1 =
      (momentum sysP).2.1 := by
    rw [show animateN cfg0 true 2 sysP =
      (animate cfg0 true (animate cfg0 true sysP).sys).sys from rfl] at hcontra
    exact congrArg (fun v => v.2.1) hcontra
  rw [hdec2] at h2y
  linarith [hdec1, hstep1y, h2y]
